import Mathlib

/-!
Shallow embedding of `shasta_install_utility_common/products.py`:
the `ProductCatalog` and `InstalledProductVersion` classes and the
module-level helpers `uninstall_docker_image`,
`uninstall_nexus_helm_chart` and `uninstall_k8_helm_charts`.

Python's untyped nested dictionaries are embedded as the `Py` value
universe; dictionary operations (`get`, indexing, `in`, iteration,
truthiness) are embedded with Python's failure behaviour (missing
attribute on `None`, iterating a non-list, missing key) surfaced as
`PyErr` values.  Side effects (prints, external registry calls) are
collected as an event trace in a writer/except monad `MRes`; external
collaborators (docker registry, nexus API, kubernetes, the YAML
decoder, the schema validator and the `catalog_update` process) are
parameters (oracles) of the embedded operations, following the spec's
treatment of them as opaque collaborators.
-/

/-- A Python value as it appears in the product-catalog data:
`None`, a string, a list, or a (string-keyed) dict. -/
inductive Py where
  | none
  | str (s : String)
  | list (xs : List Py)
  | dict (kvs : List (String × Py))
  deriving Repr

mutual

/-- Structural equality of `Py` values (Python `==` on this universe). -/
def Py.beq : Py → Py → Bool
  | .none, .none => true
  | .str a, .str b => a == b
  | .list xs, .list ys => Py.beqL xs ys
  | .dict xs, .dict ys => Py.beqD xs ys
  | _, _ => false

/-- Elementwise equality of `Py` lists. -/
def Py.beqL : List Py → List Py → Bool
  | [], [] => true
  | a :: as, b :: bs => Py.beq a b && Py.beqL as bs
  | _, _ => false

/-- Entrywise equality of `Py` dicts (as association lists). -/
def Py.beqD : List (String × Py) → List (String × Py) → Bool
  | [], [] => true
  | (k, v) :: as, (l, w) :: bs => k == l && Py.beq v w && Py.beqD as bs
  | _, _ => false

end

mutual

theorem Py.beq_iff : ∀ a b : Py, Py.beq a b = true ↔ a = b
  | .none, .none => by simp [Py.beq]
  | .none, .str _ => by simp [Py.beq]
  | .none, .list _ => by simp [Py.beq]
  | .none, .dict _ => by simp [Py.beq]
  | .str _, .none => by simp [Py.beq]
  | .str a, .str b => by simp [Py.beq]
  | .str _, .list _ => by simp [Py.beq]
  | .str _, .dict _ => by simp [Py.beq]
  | .list _, .none => by simp [Py.beq]
  | .list _, .str _ => by simp [Py.beq]
  | .list xs, .list ys => by
    simpa [Py.beq] using Py.beqL_iff xs ys
  | .list _, .dict _ => by simp [Py.beq]
  | .dict _, .none => by simp [Py.beq]
  | .dict _, .str _ => by simp [Py.beq]
  | .dict _, .list _ => by simp [Py.beq]
  | .dict xs, .dict ys => by
    simpa [Py.beq] using Py.beqD_iff xs ys

theorem Py.beqL_iff : ∀ xs ys : List Py, Py.beqL xs ys = true ↔ xs = ys
  | [], [] => by simp [Py.beqL]
  | [], _ :: _ => by simp [Py.beqL]
  | _ :: _, [] => by simp [Py.beqL]
  | a :: as, b :: bs => by
    simp [Py.beqL, Py.beq_iff a b, Py.beqL_iff as bs]

theorem Py.beqD_iff : ∀ xs ys : List (String × Py), Py.beqD xs ys = true ↔ xs = ys
  | [], [] => by simp [Py.beqD]
  | [], _ :: _ => by simp [Py.beqD]
  | _ :: _, [] => by simp [Py.beqD]
  | (k, v) :: as, (l, w) :: bs => by
    simp [Py.beqD, Py.beq_iff v w, Py.beqD_iff as bs, and_assoc]

end

instance : DecidableEq Py := fun a b =>
  decidable_of_iff (Py.beq a b = true) (Py.beq_iff a b)

instance {ε α : Type} [DecidableEq ε] [DecidableEq α] : DecidableEq (Except ε α) := fun x y =>
  match x, y with
  | .ok a, .ok b => if h : a = b then .isTrue (by rw [h]) else .isFalse (by simp [h])
  | .error e, .error f => if h : e = f then .isTrue (by rw [h]) else .isFalse (by simp [h])
  | .ok _, .error _ => .isFalse (by simp)
  | .error _, .ok _ => .isFalse (by simp)

namespace Py

/-- Association-list lookup backing the dict operations. -/
def lookup : List (String × Py) → String → Option Py
  | [], _ => Option.none
  | (k, v) :: rest, key => if k = key then Option.some v else lookup rest key

/-- Python runtime errors that the embedded code can raise. -/
inductive Err where
  | typeError (msg : String)
  | keyError (key : String)
  | attributeError (msg : String)
  deriving Repr, DecidableEq

/-- Python `d.get(k)`: `None` for a missing key; calling `.get` on `None`
(or any non-dict) is an `AttributeError`, as in Python. -/
def get : Py → String → Except Err Py
  | .dict kvs, k => .ok ((lookup kvs k).getD .none)
  | .none, _ => .error (.attributeError "NoneType object has no attribute get")
  | _, _ => .error (.attributeError "object has no attribute get")

/-- Python `d.get(k, default)`. -/
def getD : Py → String → Py → Except Err Py
  | .dict kvs, k, dflt => .ok ((lookup kvs k).getD dflt)
  | .none, _, _ => .error (.attributeError "NoneType object has no attribute get")
  | _, _, _ => .error (.attributeError "object has no attribute get")

/-- Python `d[k]` on a dict: `KeyError` when the key is missing, `TypeError`
when the subject is not subscriptable that way. -/
def index : Py → String → Except Err Py
  | .dict kvs, k =>
    match lookup kvs k with
    | Option.some v => .ok v
    | Option.none => .error (.keyError k)
  | _, _ => .error (.typeError "object is not subscriptable")

/-- Python `k in d` for a dict; on `None` this is a `TypeError` in Python. -/
def contains : Py → String → Except Err Bool
  | .dict kvs, k => .ok ((lookup kvs k).isSome)
  | _, _ => .error (.typeError "argument is not iterable")

/-- Iterating a value as a list; iterating `None` (or a non-list)
is a `TypeError`. -/
def asList : Py → Except Err (List Py)
  | .list xs => .ok xs
  | _ => .error (.typeError "object is not iterable")

/-- Python truthiness for the values in our universe. -/
def truthy : Py → Bool
  | .none => false
  | .str s => !(s == "")
  | .list [] => false
  | .list (_ :: _) => true
  | .dict [] => false
  | .dict (_ :: _) => true

/-- Python `a or b` (used as `... or []` in the accessors). -/
def orElse (a b : Py) : Py := if a.truthy then a else b

end Py

/-- Evaluation of a Python list comprehension filter in declaration
order, propagating the first error (used for the monadic filters of
the embedded accessors). -/
def exceptFilter (f : α → Except ε Bool) : List α → Except ε (List α)
  | [] => .ok []
  | x :: xs => do
    let b ← f x
    let rest ← exceptFilter f xs
    return if b then x :: rest else rest

/-- Evaluation of a Python list comprehension body in declaration
order, propagating the first error. -/
def exceptMap (f : α → Except ε β) : List α → Except ε (List β)
  | [] => .ok []
  | x :: xs => do
    let y ← f x
    let rest ← exceptMap f xs
    return y :: rest

/-- Python `str(v)` for the values that reach message formatting in the
embedded operations (names and versions: strings or `None`). -/
def pyStr : Py → String
  | .none => "None"
  | .str s => s
  | .list _ => "<list>"
  | .dict _ => "<dict>"

/-- Python `", ".join(...)`-style joining of a Python list of strings, with
Python's failures: joining a non-list is a `TypeError`, a non-string
element is a `TypeError`. -/
def pyJoin (sep : String) : Py → Except Py.Err String
  | .list xs => do
    let strs ← exceptMap (fun x => match x with
      | .str s => Except.ok s
      | _ => Except.error (Py.Err.typeError "sequence item: expected str instance")) xs
    return String.intercalate sep strs
  | _ => .error (.typeError "can only join an iterable")

/-- Errors of the embedded operations: a propagating Python runtime
error, or a raised `ProductInstallException` carrying its message. -/
inductive Err where
  | py (e : Py.Err)
  | yamlError (msg : String)
  | productInstall (msg : String)
  deriving Repr, DecidableEq

/-- Observable external effects of the embedded operations. -/
inductive Event where
  | print (msg : String)
  | deleteImage (name version : Py)
  | deleteComponent (id : String)
  | deleteRepo (name : Py)
  | updateGroup (name : String) (online : Bool) (blobstore : String)
      (strict : Bool) (members : Py)
  | catalogUpdate (product version : String) (payload : Py)
  deriving Repr, DecidableEq

/-- Writer/except monad: an operation yields a result (or an error)
together with the list of events it emitted before finishing. -/
structure MRes (α : Type) where
  res : Except Err α
  out : List Event
  deriving Repr

instance : Monad MRes where
  pure a := ⟨.ok a, []⟩
  bind m f :=
    match m.res with
    | .error e => ⟨.error e, m.out⟩
    | .ok a => let r := f a; ⟨r.res, m.out ++ r.out⟩

/-- Emit one event. -/
def MRes.emit (e : Event) : MRes Unit := ⟨.ok (), [e]⟩

/-- Raise an error. -/
def MRes.throw (e : Err) : MRes α := ⟨.error e, []⟩

/-- Lift a pure Python-level computation, propagating its runtime
errors. -/
def MRes.liftPy (x : Except Py.Err α) : MRes α :=
  ⟨x.mapError Err.py, []⟩

/-- Lift a pure computation that already carries the operation error
type, emitting no events. -/
def MRes.liftE (x : Except Err α) : MRes α := ⟨x, []⟩

/-- Python `try: m except ProductInstallException as err: handler err` —
a raised `ProductInstallException` is handled (the events emitted
before the raise are kept); Python runtime errors propagate. -/
def MRes.catchPIE (m : MRes α) (handler : String → MRes α) : MRes α :=
  match m.res with
  | .error (.productInstall msg) =>
    let r := handler msg
    ⟨r.res, m.out ++ r.out⟩
  | _ => m

@[simp] theorem MRes.bind_def (m : MRes α) (f : α → MRes β) :
    m >>= f = match m.res with
      | .error e => ⟨.error e, m.out⟩
      | .ok a => let r := f a; ⟨r.res, m.out ++ r.out⟩ := rfl

@[simp] theorem MRes.pure_def (a : α) : (pure a : MRes α) = ⟨.ok a, []⟩ := rfl

/-! ## Constants (`shasta_install_utility_common/constants.py`) -/

def PRODUCT_CATALOG_CONFIG_MAP_NAME : String := "cray-product-catalog"

def PRODUCT_CATALOG_CONFIG_MAP_NAMESPACE : String := "services"

def COMPONENT_VERSIONS_PRODUCT_MAP_KEY : String := "component_versions"

def COMPONENT_REPOS_KEY : String := "repositories"

def COMPONENT_DOCKER_KEY : String := "docker"

/-- Modelled from the spec: `products.py` imports `COMPONENT_HELM_KEY` from
`constants.py`, but the staged copy of `constants.py` predates that constant.
The spec's data model names the chart list key `helm`
("`componentData`: ... `helm` (list of \x7bname, version\x7d)"). -/
def COMPONENT_HELM_KEY : String := "helm"

/-! ## Record model (`InstalledProductVersion`) -/

/-- One entry of the nexus `charts` component listing
(`nexusctl` component model: name, version and component id). -/
structure NexusComponent where
  name : String
  version : String
  id : String
  deriving Repr, DecidableEq

/-- An installed product version: its name, version, raw catalog data
(the decoded YAML value for this version) and the nexus `charts`
component listing fetched once at catalog load. -/
structure InstalledProductVersion where
  name : String
  version : String
  data : Py
  nexus_charts : List NexusComponent
  deriving Repr, DecidableEq

namespace InstalledProductVersion

/-- Python `str(self)`: `f'{self.name}-{self.version}'`. -/
def pstr (p : InstalledProductVersion) : String := p.name ++ "-" ++ p.version

/-- Schema validation (`is_valid`): `validate` is the external schema
validator of `cray_product_catalog`, treated as an oracle. -/
def is_valid (validate : Py → Bool) (p : InstalledProductVersion) : Bool :=
  validate p.data

/-- Python `f'cray/cray-{self.name}'` (`_deprecated_docker_image_name`). -/
def deprecated_docker_image_name (p : InstalledProductVersion) : String :=
  "cray/cray-" ++ p.name

/-- Embedding of `_deprecated_docker_image_version`:
`self.data.get(COMPONENT_VERSIONS_PRODUCT_MAP_KEY, {}).get(self.name)`. -/
def deprecated_docker_image_version (p : InstalledProductVersion) :
    Except Py.Err Py := do
  let component_data ← p.data.getD COMPONENT_VERSIONS_PRODUCT_MAP_KEY (.dict [])
  component_data.get p.name

/-- Embedding of the `docker_images` property: with no `docker` key under
the component data, one synthesized `(cray/cray-<name>, legacy version)`
pair; otherwise `(component['name'], component['version'])` per entry of
`component_data.get('docker') or []`. -/
def docker_images (p : InstalledProductVersion) :
    Except Py.Err (List (Py × Py)) := do
  let component_data ← p.data.getD COMPONENT_VERSIONS_PRODUCT_MAP_KEY (.dict [])
  let hasDocker ← component_data.contains COMPONENT_DOCKER_KEY
  if !hasDocker then
    let legacyVersion ← deprecated_docker_image_version p
    return [(Py.str (deprecated_docker_image_name p), legacyVersion)]
  else
    let dockerVal ← component_data.get COMPONENT_DOCKER_KEY
    let entries ← (dockerVal.orElse (.list [])).asList
    exceptMap (fun component => do
      let n ← component.index "name"
      let v ← component.index "version"
      return (n, v)) entries

/-- Embedding of the `helm_charts` property: `(name, version)` per entry of
`component_data.get(COMPONENT_HELM_KEY) or []` — no legacy fallback. -/
def helm_charts (p : InstalledProductVersion) :
    Except Py.Err (List (Py × Py)) := do
  let component_data ← p.data.getD COMPONENT_VERSIONS_PRODUCT_MAP_KEY (.dict [])
  let helmVal ← component_data.get COMPONENT_HELM_KEY
  let entries ← (helmVal.orElse (.list [])).asList
  exceptMap (fun component => do
    let n ← component.index "name"
    let v ← component.index "version"
    return (n, v)) entries

/-- Embedding of the `group_repositories` property.  Note the bare
`self.data.get(...)` and `component_data.get(...)` without defaults:
a record without a `repositories` list makes the final iteration fail
with a Python runtime error. -/
def group_repositories (p : InstalledProductVersion) :
    Except Py.Err (List Py) := do
  let component_data ← p.data.get COMPONENT_VERSIONS_PRODUCT_MAP_KEY
  let repositories ← component_data.get COMPONENT_REPOS_KEY
  let repoList ← repositories.asList
  exceptFilter (fun repo => do
    return ((← repo.get "type") == Py.str "group")) repoList

end InstalledProductVersion

/-! Python `set` values are embedded as insertion-ordered duplicate-free
lists; only membership is observable in the claims about them. -/

/-- Add one element to an embedded Python set. -/
def pySetInsert (s : List Py) (x : Py) : List Py :=
  if x ∈ s then s else s ++ [x]

/-- Python `set(xs)`. -/
def pySetOfList (xs : List Py) : List Py := xs.foldl pySetInsert []

/-- Python `s |= set(xs)`. -/
def pySetUnion (s : List Py) (xs : List Py) : List Py := xs.foldl pySetInsert s

/-- The `|=` loop over the group repositories inside
`hosted_repository_names`. -/
def unionGroupMembers (acc : List Py) : List Py → Except Py.Err (List Py)
  | [] => .ok acc
  | group_repo :: rest => do
    let membersVal ← group_repo.get "members"
    let members ← membersVal.asList
    unionGroupMembers (pySetUnion acc members) rest

namespace InstalledProductVersion

/-- Embedding of the `hosted_repository_names` property: the set of names
of `hosted`-typed repositories, unioned with every group repository's
`members`. -/
def hosted_repository_names (p : InstalledProductVersion) :
    Except Py.Err (List Py) := do
  let component_data ← p.data.get COMPONENT_VERSIONS_PRODUCT_MAP_KEY
  let repositories ← component_data.get COMPONENT_REPOS_KEY
  let repoList ← repositories.asList
  let hostedRepos ← exceptFilter (fun repo => do
    return ((← repo.get "type") == Py.str "hosted")) repoList
  let hostedNames ← exceptMap (fun repo => repo.get "name") hostedRepos
  let groups ← group_repositories p
  unionGroupMembers (pySetOfList hostedNames) groups

end InstalledProductVersion

/-! ## `ProductCatalog.get_product` -/

/-- Embedding of `ProductCatalog.get_product`: the unique record matching
(name, version), `ProductInstallException` on zero or several matches. -/
def get_product (products : List InstalledProductVersion)
    (name version : String) : Except Err InstalledProductVersion :=
  match products.filter fun p => p.name == name && p.version == version with
  | [] => .error (.productInstall
      ("No installed products with name " ++ name ++ " and version " ++ version ++ "."))
  | [p] => .ok p
  | _ => .error (.productInstall
      ("Multiple installed products with name " ++ name ++ " and version " ++ version ++ "."))

/-! ## External call outcomes (oracles for the three external systems) -/

/-- Outcome of one external HTTP call (`nexusctl` raises `HTTPError`
on failure; code 404 is the not-found signal). -/
inductive HttpOutcome where
  | ok
  | httpError (code : Nat)
  deriving Repr, DecidableEq

/-- Python `str(err)` for an `HTTPError` as it reaches message
formatting (the exact library text is opaque; only the code matters). -/
def httpErrStr (code : Nat) : String := "HTTP Error " ++ toString code

/-! ## Docker image removal -/

/-- Embedding of module-level `uninstall_docker_image`: call the docker
registry delete, print on success, print on 404, raise
`ProductInstallException` on any other HTTP error. -/
def uninstall_docker_image (docker_image_name docker_image_version : Py)
    (docker_delete : Py → Py → HttpOutcome) : MRes Unit :=
  let docker_image_short_name := pyStr docker_image_name ++ ":" ++ pyStr docker_image_version
  do
  MRes.emit (.deleteImage docker_image_name docker_image_version)
  match docker_delete docker_image_name docker_image_version with
  | .ok => MRes.emit (.print ("Removed Docker image " ++ docker_image_short_name))
  | .httpError code =>
    if code == 404 then
      MRes.emit (.print (docker_image_short_name ++ " has already been removed."))
    else
      MRes.throw (.productInstall
        ("Failed to remove image " ++ docker_image_short_name ++ ": " ++ httpErrStr code))

/-- Whether record `q` declares a docker image with the given (name,
version) — the `any(...)` of the inner comprehension in
`remove_product_docker_images`. -/
def sharesDockerImage (q : InstalledProductVersion) (image_name image_version : Py) :
    Except Py.Err Bool := do
  let imgs ← q.docker_images
  return imgs.any fun img => img.1 == image_name && img.2 == image_version

/-- The sublist of `other_products` declaring the given image
(`other_products_with_same_docker_image`), in record-set order. -/
def otherProductsWithSameDockerImage (other_products : List InstalledProductVersion)
    (image_name image_version : Py) : Except Py.Err (List InstalledProductVersion) :=
  exceptFilter (fun q => sharesDockerImage q image_name image_version) other_products

/-- The records other than the target (`other_products` in
`remove_product_docker_images`): every record whose version or name
differs. -/
def dockerOtherProducts (products : List InstalledProductVersion)
    (product : InstalledProductVersion) : List InstalledProductVersion :=
  products.filter fun p => !(p.version == product.version) || !(p.name == product.name)

/-- The shared-image notice printed by `remove_product_docker_images`. -/
def sharedImageNotice (image_name image_version : Py)
    (owners : List InstalledProductVersion) : String :=
  "Not removing Docker image " ++ pyStr image_name ++ ":" ++ pyStr image_version ++
  " used by the following other product versions: " ++
  String.intercalate ", " (owners.map InstalledProductVersion.pstr)

/-- The per-image loop of `remove_product_docker_images`, threading the
`errors` flag. -/
def removeImagesLoop (other_products : List InstalledProductVersion)
    (docker_delete : Py → Py → HttpOutcome) :
    List (Py × Py) → Bool → MRes Bool
  | [], errors => pure errors
  | img :: rest, errors => do
    let sharing ← MRes.liftPy
      (otherProductsWithSameDockerImage other_products img.1 img.2)
    let errors2 ←
      if !sharing.isEmpty then do
        MRes.emit (.print (sharedImageNotice img.1 img.2 sharing))
        pure errors
      else
        MRes.catchPIE
          (do uninstall_docker_image img.1 img.2 docker_delete
              pure errors)
          (fun msg => do
              MRes.emit (.print
                ("Failed to remove " ++ pyStr img.1 ++ ":" ++ pyStr img.2 ++ ": " ++ msg))
              pure true)
    removeImagesLoop other_products docker_delete rest errors2

/-- Embedding of `ProductCatalog.remove_product_docker_images`. -/
def remove_product_docker_images (products : List InstalledProductVersion)
    (name version : String) (docker_delete : Py → Py → HttpOutcome) : MRes Unit := do
  let product ← MRes.liftE (get_product products name version)
  let images_to_remove ← MRes.liftPy product.docker_images
  let other_products := dockerOtherProducts products product
  let errors ← removeImagesLoop other_products docker_delete images_to_remove false
  if errors then
    MRes.throw (.productInstall
      ("One or more errors occurred removing Docker images for " ++ name ++ " " ++ version ++ "."))
  else
    pure ()

/-! ## Repository reconciliation -/

/-- One entry of the nexus repository listing (`RepoListHostedEntry` /
`RepoListGroupEntry`): the attributes the code reads, plus the group
entry's current member list, which the code never reads. -/
structure RepoEntry where
  name : String
  online : Bool
  blobstore_name : String
  strict_content_type_validation : Bool
  member_names : List String
  deriving Repr, DecidableEq

/-- Embedding of `InstalledProductVersion._get_repo_by_name`:
`repos_list` is the nexus `repos.list` API keyed by the regex string. -/
def get_repo_by_name (repos_list : String → Except Nat (List RepoEntry))
    (name : Py) : Except Err RepoEntry :=
  match repos_list ("^" ++ pyStr name ++ "$") with
  | .error code => .error (.productInstall
      ("Failed to get repository " ++ pyStr name ++ ": " ++ httpErrStr code))
  | .ok repos_matching_name =>
    if repos_matching_name.length > 1 then
      .error (.productInstall ("More than one repository named " ++ pyStr name ++ " found."))
    else
      match repos_matching_name with
      | [] => .error (.productInstall ("No repository named " ++ pyStr name ++ " found."))
      | r :: _ => .ok r

/-- The per-group-repo loop of `activate_hosted_repos_in_group`:
`raw_group_update` is the nexus `repos.raw_group.update` API.  Only the
update call's `HTTPError` is collected into the `errors` flag; a
failure of `_get_repo_by_name` (a `ProductInstallException`) or a
missing `members` key propagates at once. -/
def activateLoop (repos_list : String → Except Nat (List RepoEntry))
    (raw_group_update : String → Bool → String → Bool → Py → HttpOutcome) :
    List Py → Bool → MRes Bool
  | [], errors => pure errors
  | group_repo_data :: rest, errors => do
    let members ← MRes.liftPy (group_repo_data.index "members")
    let nameVal ← MRes.liftPy (group_repo_data.get "name")
    let group_repo ← MRes.liftE (get_repo_by_name repos_list nameVal)
    MRes.emit (.updateGroup group_repo.name group_repo.online
      group_repo.blobstore_name group_repo.strict_content_type_validation members)
    let joined ← MRes.liftPy (pyJoin "," members)
    let errors2 ←
      match raw_group_update group_repo.name group_repo.online
          group_repo.blobstore_name group_repo.strict_content_type_validation members with
      | .ok => do
        MRes.emit (.print ("Updated group repository " ++ group_repo.name ++
          " with member repositories: [" ++ joined ++ "]"))
        pure errors
      | .httpError code => do
        MRes.emit (.print ("Failed to update group repository " ++ group_repo.name ++
          " with member repositories: [" ++ joined ++ "]. Error: " ++ httpErrStr code))
        pure true
    activateLoop repos_list raw_group_update rest errors2

/-- Embedding of `InstalledProductVersion.activate_hosted_repos_in_group`. -/
def activate_hosted_repos_in_group (p : InstalledProductVersion)
    (repos_list : String → Except Nat (List RepoEntry))
    (raw_group_update : String → Bool → String → Bool → Py → HttpOutcome) : MRes Unit := do
  let groups ← MRes.liftPy p.group_repositories
  let errors ← activateLoop repos_list raw_group_update groups false
  if errors then
    MRes.throw (.productInstall
      ("One or more errors occurred activating repositories for " ++ p.name ++ " " ++ p.version ++ "."))
  else
    pure ()

/-- The external package-repository store, as the set of names of the
repositories that exist (list with set semantics). -/
abbrev RepoState := List Py

/-- The natural semantics of the external `repos.delete` call: deleting
a present repository removes it and succeeds, deleting an absent one
answers 404. -/
def natRepoDelete (st : RepoState) (nm : Py) : HttpOutcome × RepoState :=
  if nm ∈ st then (.ok, st.filter fun x => x ≠ nm) else (.httpError 404, st)

/-- The per-name loop of `uninstall_hosted_repos`, threading the
external repository state and the `errors` flag; yields the emitted
events, the final flag and the final state. -/
def uninstallReposLoop (repo_delete : RepoState → Py → HttpOutcome × RepoState) :
    List Py → RepoState → Bool → List Event × Bool × RepoState
  | [], st, errors => ([], errors, st)
  | nm :: rest, st, errors =>
    let (outcome, st2) := repo_delete st nm
    let (stepEvs, errors2) :=
      match outcome with
      | .ok => ([Event.print ("Repository " ++ pyStr nm ++ " has been removed.")], errors)
      | .httpError code =>
        if code == 404 then
          ([Event.print (pyStr nm ++ " has already been removed.")], errors)
        else
          ([Event.print ("Failed to remove hosted repository " ++ pyStr nm ++ ": " ++ httpErrStr code)], true)
    let (evs, errorsF, stF) := uninstallReposLoop repo_delete rest st2 errors2
    (Event.deleteRepo nm :: stepEvs ++ evs, errorsF, stF)

/-- Embedding of `InstalledProductVersion.uninstall_hosted_repos`,
threading the external repository state. -/
def uninstall_hosted_repos (p : InstalledProductVersion)
    (repo_delete : RepoState → Py → HttpOutcome × RepoState)
    (st : RepoState) : MRes Unit × RepoState :=
  match p.hosted_repository_names with
  | .error e => (⟨.error (.py e), []⟩, st)
  | .ok names =>
    let (evs, errors, st2) := uninstallReposLoop repo_delete names st false
    if errors then
      (⟨.error (.productInstall
          ("One or more errors occurred uninstalling repositories for " ++ p.name ++ " " ++ p.version ++ ".")),
        evs⟩, st2)
    else
      (⟨.ok (), evs⟩, st2)

/-! ## Helm chart removal -/

/-- A (name, version, nexus component id) triple
(`NexusHelmChartTuples` entry). -/
abbrev NexusChart := Py × Py × String

/-- Embedding of module-level `uninstall_nexus_helm_chart`: call the
nexus component delete; nothing is printed on success, 404 prints an
already-removed notice, any other HTTP error raises
`ProductInstallException`. -/
def uninstall_nexus_helm_chart (name version : Py) (id : String)
    (component_delete : String → HttpOutcome) : MRes Unit :=
  let helm_chart_short_name := pyStr name ++ ":" ++ pyStr version
  do
  MRes.emit (.deleteComponent id)
  match component_delete id with
  | .ok => pure ()
  | .httpError code =>
    if code == 404 then
      MRes.emit (.print ("Helm chart " ++ helm_chart_short_name ++ " has already been removed."))
    else
      MRes.throw (.productInstall
        ("Failed to remove helm chart " ++ helm_chart_short_name ++ " from nexus"))

/-- Embedding of
`InstalledProductVersion.get_helm_chart_nexus_component_ids`: resolve
each declared chart against the fetched nexus component listing (first
match wins); `None` with a notice when the record declares no charts. -/
def get_helm_chart_nexus_component_ids (p : InstalledProductVersion) :
    MRes (Option (List NexusChart)) :=
  match p.helm_charts with
  | .error e => ⟨.error (.py e), []⟩
  | .ok [] =>
    ⟨.ok Option.none,
     [.print ("No helm charts found in the configmap data for " ++ p.name ++ ":" ++ p.version)]⟩
  | .ok charts_to_find =>
    let found := charts_to_find.foldl
      (fun acc chart_tuple =>
        match p.nexus_charts.find? fun component =>
            Py.str component.name == chart_tuple.1 && Py.str component.version == chart_tuple.2 with
        | Option.some component => acc ++ [(chart_tuple.1, chart_tuple.2, component.id)]
        | Option.none => acc)
      []
    ⟨.ok (Option.some found), []⟩

/-- The kubernetes config map as the code reads it: `data` maps a
product name to its stored value (a raw YAML text, until the code
overwrites an entry with a decoded dict). -/
structure V1ConfigMap where
  data : Option (List (String × Py))
  deriving Repr, DecidableEq

/-- Outcome of `read_namespaced_config_map`. -/
inductive K8sReadOutcome where
  | ok (config_map : V1ConfigMap)
  | maxRetryError (msg : String)
  | apiError (reason : String)
  deriving Repr, DecidableEq

/-- Subscripting the config map data dict (`config_map.data[k]`). -/
def cmIndex (kvs : List (String × Py)) (k : String) : Except Py.Err Py :=
  match Py.lookup kvs k with
  | Option.some v => .ok v
  | Option.none => .error (.keyError k)

/-- Assignment `d[k] = v` on an association list: replace the first
binding in place, append when the key is new. -/
def assocSet : List (String × Py) → String → Py → List (String × Py)
  | [], k, v => [(k, v)]
  | (k0, v0) :: rest, k, v =>
    if k0 = k then (k0, v) :: rest else (k0, v0) :: assocSet rest k v

/-- Assignment `d[k] = v` on a `Py` dict (only ever applied to dicts). -/
def Py.setIndex : Py → String → Py → Py
  | .dict kvs, k, v => .dict (assocSet kvs k v)
  | other, _, _ => other

/-- Python `yaml.safe_load` applied to a stored config-map value: the
decoder itself is an oracle on the raw text; applying it to a non-text
value cannot happen on the paths the code takes. -/
def safeLoadValue (safe_load : String → Except String Py) : Py → Except Err Py
  | .str s =>
    match safe_load s with
    | .ok v => .ok v
    | .error msg => .error (.yamlError msg)
  | _ => .error (.py (.typeError "yaml source is not text"))

/-- Python `del product_charts[idx]` for the first entry whose `name`
equals the deleted chart name, scanning left to right (`break` after
the first hit; entries after the hit are not inspected). -/
def deleteFirstChartMatch (name : Py) : List Py → Except Py.Err (List Py)
  | [] => .ok []
  | chart_dict :: rest => do
    let n ← chart_dict.index "name"
    if name == n then
      .ok rest
    else do
      let rest2 ← deleteFirstChartMatch name rest
      return chart_dict :: rest2

/-- The per-deleted-chart loop of `uninstall_k8_helm_charts`: print the
attempt and drop the first matching entry from the product chart list. -/
def k8DeleteLoop : List NexusChart → List Py → MRes (List Py)
  | [], product_charts => pure product_charts
  | chart :: rest, product_charts => do
    MRes.emit (.print ("Attempting to delete chart " ++ pyStr chart.1 ++ ":" ++
      pyStr chart.2.1 ++ ":" ++ chart.2.2))
    let product_charts2 ← MRes.liftPy (deleteFirstChartMatch chart.1 product_charts)
    k8DeleteLoop rest product_charts2

/-- Embedding of module-level `uninstall_k8_helm_charts`: read the
catalog config map, decode the product entry, drop the charts deleted
from nexus from its chart list and return the updated config map. -/
def uninstall_k8_helm_charts (product_name product_version : String)
    (charts_deleted_nexus : List NexusChart)
    (read_config_map : K8sReadOutcome)
    (safe_load : String → Except String Py) : MRes V1ConfigMap := do
  if charts_deleted_nexus.length == 0 then
    MRes.throw (.productInstall "No charts to delete from cray-product-catalog ConfigMap.")
  else
  match read_config_map with
  | .maxRetryError msg =>
    MRes.throw (.productInstall ("Unable to connect to Kubernetes to read " ++
      PRODUCT_CATALOG_CONFIG_MAP_NAME ++ "/" ++ product_name ++ " ConfigMap: " ++ msg))
  | .apiError reason =>
    MRes.throw (.productInstall ("Error reading " ++
      PRODUCT_CATALOG_CONFIG_MAP_NAME ++ "/" ++ product_name ++ " ConfigMap: " ++ reason))
  | .ok config_map =>
    match config_map.data with
    | Option.none =>
      MRes.throw (.productInstall ("No data found in " ++
        PRODUCT_CATALOG_CONFIG_MAP_NAME ++ "/" ++ product_name ++ " ConfigMap."))
    | Option.some cmData =>
      match cmIndex cmData product_name with
      | .error _ =>
        MRes.throw (.productInstall ("No ConfigMap data found for " ++ product_name))
      | .ok stored => do
        let product_data ← MRes.liftE (safeLoadValue safe_load stored)
        let chartsE : Except Py.Err Py := do
          let versionData ← product_data.index product_version
          let componentVersions ← versionData.index COMPONENT_VERSIONS_PRODUCT_MAP_KEY
          componentVersions.index COMPONENT_HELM_KEY
        match chartsE with
        | .error (.keyError _) =>
          MRes.throw (.productInstall
            ("There are no helm charts located in the product catalog configmap for " ++
             product_name ++ ":" ++ product_version))
        | .error e => MRes.liftPy (.error e)
        | .ok chartsVal => do
          let product_charts ← MRes.liftPy chartsVal.asList
          let product_charts2 ← k8DeleteLoop charts_deleted_nexus product_charts
          let versionData := (product_data.index product_version).toOption.getD .none
          let componentVersions := (versionData.index COMPONENT_VERSIONS_PRODUCT_MAP_KEY).toOption.getD .none
          let componentVersions2 := componentVersions.setIndex COMPONENT_HELM_KEY (.list product_charts2)
          let versionData2 := versionData.setIndex COMPONENT_VERSIONS_PRODUCT_MAP_KEY componentVersions2
          let product_data2 := product_data.setIndex product_version versionData2
          return ⟨Option.some (assocSet cmData product_name product_data2)⟩

/-- Python `str(err)` for a `CalledProcessError` (external process
nonzero exit); only the exit code matters here. -/
def procErrStr (code : Nat) : String :=
  "Command catalog_update returned non-zero exit status " ++ toString code ++ "."

/-- Embedding of `ProductCatalog.update_product_data`: stage the
payload and invoke the external `catalog_update` process
(`catalog_update_exit` is its exit code). -/
def update_product_data (name version : String) (updated_product_data : Py)
    (catalog_update_exit : String → String → Py → Nat) : MRes Unit := do
  MRes.emit (.catalogUpdate name version updated_product_data)
  let code := catalog_update_exit name version updated_product_data
  if code == 0 then
    MRes.emit (.print ("Updated " ++ name ++ "-" ++ version ++
      " in the product catalog with new product data."))
  else
    MRes.throw (.productInstall ("Error activating " ++ name ++ "-" ++ version ++
      " in product catalog: " ++ procErrStr code))

/-- The mutable state of one `ProductCatalog` instance: the loaded
records and the instance attribute `helm_charts_deleted_nexus`
(initialised to `[]` in `__init__` and appended to by
`remove_helm_charts`). -/
structure CatalogState where
  products : List InstalledProductVersion
  helm_charts_deleted_nexus : List NexusChart
  deriving Repr, DecidableEq

/-- The per-chart loop of `remove_helm_charts`: delete each resolved
chart from nexus, keeping the charts whose deletion call succeeded
(`ProductInstallException` per chart is printed and swallowed). -/
def removeChartsLoop (component_delete : String → HttpOutcome)
    (name version : String) : List NexusChart → MRes (List NexusChart)
  | [] => pure []
  | chart :: rest => do
    let deletedHere ← MRes.catchPIE
      (do uninstall_nexus_helm_chart chart.1 chart.2.1 chart.2.2 component_delete
          pure [chart])
      (fun msg => do
          MRes.emit (.print ("Failed to remove chart " ++ pyStr chart.1 ++ ":" ++
            pyStr chart.2.1 ++ " from " ++ name ++ ":" ++ version ++ ": " ++ msg))
          pure [])
    let dels ← removeChartsLoop component_delete name version rest
    pure (deletedHere ++ dels)

/-- Embedding of `ProductCatalog.remove_helm_charts`, threading the
catalog instance state (the `helm_charts_deleted_nexus` attribute). -/
def remove_helm_charts (st : CatalogState) (name version : String)
    (component_delete : String → HttpOutcome)
    (read_config_map : K8sReadOutcome)
    (safe_load : String → Except String Py)
    (catalog_update_exit : String → String → Py → Nat) :
    CatalogState × MRes Unit :=
  match get_product st.products name version with
  | .error e => (st, ⟨.error e, []⟩)
  | .ok product =>
    let idsRes := get_helm_chart_nexus_component_ids product
    match idsRes.res with
    | .error e => (st, ⟨.error e, idsRes.out⟩)
    | .ok k8s_charts =>
      if (k8s_charts.getD []).isEmpty then
        (st, ⟨.ok (),
          idsRes.out ++ [.print ("No helm charts found to remove for " ++ name ++ ":" ++ version)]⟩)
      else
        let loopRes := removeChartsLoop component_delete name version (k8s_charts.getD [])
        match loopRes.res with
        | .error e => (st, ⟨.error e, idsRes.out ++ loopRes.out⟩)
        | .ok newly =>
          let st2 : CatalogState :=
            { st with helm_charts_deleted_nexus := st.helm_charts_deleted_nexus ++ newly }
          let k8Res := uninstall_k8_helm_charts name version
            st2.helm_charts_deleted_nexus read_config_map safe_load
          match k8Res.res with
          | .error (.productInstall msg) =>
            (st2, ⟨.error (.productInstall msg),
              idsRes.out ++ loopRes.out ++ k8Res.out ++
              [.print ("Failed to remove helm charts from the ConfigMap: " ++ msg)]⟩)
          | .error e =>
            (st2, ⟨.error e, idsRes.out ++ loopRes.out ++ k8Res.out⟩)
          | .ok updated_config_map =>
            let payloadE : Except Py.Err Py := do
              match updated_config_map.data with
              | Option.none => Except.error (Py.Err.typeError "NoneType is not subscriptable")
              | Option.some kvs => do
                let productEntry ← cmIndex kvs name
                productEntry.index version
            match payloadE with
            | .error e =>
              (st2, ⟨.error (.py e), idsRes.out ++ loopRes.out ++ k8Res.out⟩)
            | .ok payload =>
              let updRes := update_product_data name version payload catalog_update_exit
              match updRes.res with
              | .error (.productInstall msg) =>
                (st2, ⟨.error (.productInstall msg),
                  idsRes.out ++ loopRes.out ++ k8Res.out ++ updRes.out ++
                  [.print ("Failed to update helm charts in the ConfigMap: " ++ msg)]⟩)
              | .error e =>
                (st2, ⟨.error e, idsRes.out ++ loopRes.out ++ k8Res.out ++ updRes.out⟩)
              | .ok _ =>
                (st2, ⟨.ok (), idsRes.out ++ loopRes.out ++ k8Res.out ++ updRes.out⟩)

/-! ## Catalog load (`ProductCatalog.__init__`) -/

/-- Outcome of reading the nexus credentials secret. -/
inductive SecretOutcome where
  | unreadable
  | noData
  | creds (username password : String)
  deriving Repr, DecidableEq

/-- Embedding of
`ProductCatalog._update_environment_with_nexus_credentials`: a warning
print when the secret cannot be read or has no data (the environment
update itself has no observable effect in this model). -/
def update_environment_with_nexus_credentials (secret : SecretOutcome)
    (secret_name secret_namespace : String) : MRes Unit :=
  match secret with
  | .unreadable =>
    MRes.emit (.print ("WARNING: unable to read Kubernetes secret " ++
      secret_namespace ++ "/" ++ secret_name))
  | .noData =>
    MRes.emit (.print ("WARNING: unable to read Kubernetes secret " ++
      secret_namespace ++ "/" ++ secret_name))
  | .creds _ _ => pure ()

/-- Outcome of the one-time `nexus_api.components.list("charts")`. -/
inductive ComponentsListOutcome where
  | ok (components : List NexusComponent)
  | httpError (code : Nat)
  deriving Repr, DecidableEq

/-- The record comprehension of `__init__`: one record per (product,
version) of each decoded product entry, in config-map order.  A YAML
decode failure or a non-dict decode surfaces as an error for the whole
comprehension, exactly as the Python comprehension raises. -/
def loadProducts (safe_load : String → Except String Py)
    (nexus_charts : List NexusComponent) :
    List (String × Py) → Except Err (List InstalledProductVersion)
  | [] => .ok []
  | (product_name, stored) :: rest => do
    let loaded ← safeLoadValue safe_load stored
    let versions ← match loaded with
      | .dict kvs => Except.ok kvs
      | _ => Except.error (Err.py (.attributeError "object has no attribute items"))
    let these := versions.map fun kv =>
      InstalledProductVersion.mk product_name kv.1 kv.2 nexus_charts
    let more ← loadProducts safe_load nexus_charts rest
    return these ++ more

/-- Embedding of `ProductCatalog.__init__` from the config-map read on:
read the catalog config map, fetch the nexus chart components, decode
every product entry, then filter out schema-invalid records with one
combined notice. -/
def productCatalogInit (name nsp : String)
    (secret : SecretOutcome) (secret_name secret_namespace : String)
    (read_config_map : K8sReadOutcome)
    (nexus_components : ComponentsListOutcome)
    (safe_load : String → Except String Py)
    (validate : Py → Bool) : MRes CatalogState := do
  update_environment_with_nexus_credentials secret secret_name secret_namespace
  match read_config_map with
  | .maxRetryError msg =>
    MRes.throw (.productInstall ("Unable to connect to Kubernetes to read " ++
      nsp ++ "/" ++ name ++ " ConfigMap: " ++ msg))
  | .apiError reason =>
    MRes.throw (.productInstall ("Error reading " ++ nsp ++ "/" ++ name ++
      " ConfigMap: " ++ reason))
  | .ok config_map =>
    match config_map.data with
    | Option.none =>
      MRes.throw (.productInstall ("No data found in " ++ nsp ++ "/" ++ name ++ " ConfigMap."))
    | Option.some cmData => do
      let nexus_charts ← match nexus_components with
        | .httpError code =>
          MRes.throw (.productInstall
            ("Failed to load Nexus components for charts repository: " ++ httpErrStr code))
        | .ok components => pure components
      let products ← match loadProducts safe_load nexus_charts cmData with
        | .error (.yamlError msg) =>
          MRes.throw (.productInstall ("Failed to load ConfigMap data: " ++ msg))
        | .error e => MRes.throw e
        | .ok products => pure products
      let invalid_products := products.filter fun p => !(p.is_valid validate)
      if !invalid_products.isEmpty then
        MRes.emit (.print ("The following products have product catalog data that " ++
          "is not understood by the install utility: " ++
          String.intercalate ", " (invalid_products.map InstalledProductVersion.pstr)))
      return { products := products.filter fun p => p.is_valid validate
               helm_charts_deleted_nexus := [] }

/-! ## Catalog-level repository wrappers -/

/-- Embedding of `ProductCatalog.activate_product_hosted_repos`. -/
def activate_product_hosted_repos (products : List InstalledProductVersion)
    (name version : String)
    (repos_list : String → Except Nat (List RepoEntry))
    (raw_group_update : String → Bool → String → Bool → Py → HttpOutcome) : MRes Unit := do
  let product_to_activate ← MRes.liftE (get_product products name version)
  activate_hosted_repos_in_group product_to_activate repos_list raw_group_update

/-- Embedding of `ProductCatalog.uninstall_product_hosted_repos`,
threading the external repository state. -/
def uninstall_product_hosted_repos (products : List InstalledProductVersion)
    (name version : String)
    (repo_delete : RepoState → Py → HttpOutcome × RepoState)
    (st : RepoState) : MRes Unit × RepoState :=
  match get_product products name version with
  | .error e => (⟨.error e, []⟩, st)
  | .ok product_to_uninstall => uninstall_hosted_repos product_to_uninstall repo_delete st

/-! ## Proof infrastructure -/

theorem exbind_ok {α β ε} (a : α) (f : α → Except ε β) :
    (Except.ok a : Except ε α) >>= f = f a := rfl

theorem exbind_err {α β ε} (e : ε) (f : α → Except ε β) :
    (Except.error e : Except ε α) >>= f = Except.error e := rfl

theorem exmap_ok {α β ε} (g : α → β) (a : α) :
    (g <$> (Except.ok a : Except ε α)) = Except.ok (g a) := rfl

theorem exmap_err {α β ε} (g : α → β) (e : ε) :
    (g <$> (Except.error e : Except ε α)) = Except.error e := rfl

theorem exceptMap_ok {α β ε} {f : α → Except ε β} {g : α → β} :
    ∀ l : List α, (∀ a ∈ l, f a = .ok (g a)) → exceptMap f l = .ok (l.map g)
  | [], _ => rfl
  | x :: xs, h => by
    have hx := h x (List.mem_cons_self x xs)
    have hrest := exceptMap_ok xs fun a ha => h a (List.mem_cons_of_mem x ha)
    simp [exceptMap, hx, hrest, exbind_ok, exmap_ok]

theorem exceptFilter_ok {α ε} {f : α → Except ε Bool} {g : α → Bool} :
    ∀ l : List α, (∀ a ∈ l, f a = .ok (g a)) → exceptFilter f l = .ok (l.filter g)
  | [], _ => rfl
  | x :: xs, h => by
    have hx := h x (List.mem_cons_self x xs)
    have hrest := exceptFilter_ok xs fun a ha => h a (List.mem_cons_of_mem x ha)
    by_cases hg : g x <;>
      simp [exceptFilter, hx, hrest, exbind_ok, exmap_ok, List.filter, hg]

/-- The (name, version) pair of one docker/helm list entry as the
accessors read it (defined on entries that carry both keys). -/
def entryPair (e : Py) : Py × Py :=
  ((e.index "name").toOption.getD .none, (e.index "version").toOption.getD .none)

/-! ## Sample records (shared by the concrete witnesses) -/

/-- A legacy record: `component_versions` with no `docker` key. -/
def legacyRecord : InstalledProductVersion :=
  ⟨"old-product", "1.0.0",
   .dict [("component_versions", .dict [("old-product", .str "0.9.9")])], []⟩

/-- A record whose `component_versions` has no `repositories` key. -/
def noRepoRecord : InstalledProductVersion :=
  ⟨"norepo", "1.0.0", .dict [("component_versions", .dict [])], []⟩

/-! ## Claims -/

/-- C4: for a record whose componentData lacks the `docker` key the
docker-image accessor returns exactly one synthesized pair named
`cray/cray-<product-name>` with version `componentData.get(product-name)`
(still one pair, with a missing version, when that lookup yields
nothing); a `docker` key that is null or the empty list yields the
empty sequence; otherwise one (name, version) pair per list entry in
declared order. -/
theorem C4_docker_images_accessor (p : InstalledProductVersion)
    (cd : List (String × Py))
    (hcd : p.data.getD COMPONENT_VERSIONS_PRODUCT_MAP_KEY (.dict []) = .ok (.dict cd)) :
    (Py.lookup cd COMPONENT_DOCKER_KEY = Option.none →
      p.docker_images =
        .ok [(Py.str ("cray/cray-" ++ p.name), (Py.lookup cd p.name).getD .none)]) ∧
    (∀ v, Py.lookup cd COMPONENT_DOCKER_KEY = Option.some v → (v = .none ∨ v = .list []) →
      p.docker_images = .ok []) ∧
    (∀ entries, Py.lookup cd COMPONENT_DOCKER_KEY = Option.some (.list entries) →
      entries ≠ [] →
      (∀ e ∈ entries, ∃ kvs n v, e = .dict kvs ∧
        Py.lookup kvs "name" = Option.some n ∧ Py.lookup kvs "version" = Option.some v) →
      p.docker_images = .ok (entries.map entryPair)) := by
  refine ⟨?_, ?_, ?_⟩
  · intro hnone
    unfold InstalledProductVersion.docker_images
    rw [hcd, exbind_ok]
    simp [Py.contains, hnone, exbind_ok,
      InstalledProductVersion.deprecated_docker_image_version, hcd,
      InstalledProductVersion.deprecated_docker_image_name, Py.get, exmap_ok]
  · rintro v hv (rfl | rfl) <;>
    · unfold InstalledProductVersion.docker_images
      rw [hcd, exbind_ok]
      simp [Py.contains, hv, exbind_ok, Py.get, Py.orElse, Py.truthy, Py.asList,
        exceptMap, exmap_ok]
  · intro entries hv hne hwf
    have htr : (Py.list entries).truthy = true := by
      cases entries with
      | nil => exact absurd rfl hne
      | cons a as => simp [Py.truthy]
    unfold InstalledProductVersion.docker_images
    rw [hcd, exbind_ok]
    simp only [Py.contains, hv, exbind_ok, Py.get, Py.orElse, htr, Py.asList,
      Option.isSome_some, Option.getD_some, Bool.not_true, Bool.false_eq_true,
      if_true, if_false, ite_true, ite_false, Bool.ite_eq_true_distrib, reduceIte]
    apply exceptMap_ok
    intro e he
    obtain ⟨kvs, n, v, rfl, hn, hvv⟩ := hwf e he
    simp [Py.index, hn, hvv, exbind_ok, exmap_ok, entryPair, Except.toOption]

/-- Concrete instance of C4 at `legacyRecord`: the synthesized legacy
pair is returned. -/
theorem C4_docker_images_accessor_witness :
    legacyRecord.docker_images =
      .ok [(Py.str "cray/cray-old-product", Py.str "0.9.9")] := by
  have h := (C4_docker_images_accessor legacyRecord
    [("old-product", Py.str "0.9.9")] rfl).1 rfl
  simpa using h

/-- C9: a record whose componentData lacks the `repositories` key (or
maps it to null) makes `group_repositories` and
`hosted_repository_names` — and through them repository activation and
hosted-repository removal — fail with a Python runtime type error
instead of returning an empty collection. -/
theorem C9_missing_repositories_type_error (p : InstalledProductVersion)
    (cd : List (String × Py))
    (hcd : p.data.get COMPONENT_VERSIONS_PRODUCT_MAP_KEY = .ok (.dict cd))
    (hmiss : Py.lookup cd COMPONENT_REPOS_KEY = Option.none ∨
             Py.lookup cd COMPONENT_REPOS_KEY = Option.some Py.none) :
    p.group_repositories = .error (.typeError "object is not iterable") ∧
    p.hosted_repository_names = .error (.typeError "object is not iterable") ∧
    (∀ repos_list raw_group_update,
      activate_hosted_repos_in_group p repos_list raw_group_update =
        ⟨.error (.py (.typeError "object is not iterable")), []⟩) ∧
    (∀ repo_delete st,
      uninstall_hosted_repos p repo_delete st =
        (⟨.error (.py (.typeError "object is not iterable")), []⟩, st)) := by
  have hrep : (Py.dict cd).get COMPONENT_REPOS_KEY = .ok Py.none := by
    rcases hmiss with h | h <;> simp [Py.get, h]
  have hg : p.group_repositories = .error (.typeError "object is not iterable") := by
    unfold InstalledProductVersion.group_repositories
    rw [hcd, exbind_ok, hrep, exbind_ok]
    rfl
  have hh : p.hosted_repository_names = .error (.typeError "object is not iterable") := by
    unfold InstalledProductVersion.hosted_repository_names
    rw [hcd, exbind_ok, hrep, exbind_ok]
    rfl
  refine ⟨hg, hh, ?_, ?_⟩
  · intro repos_list raw_group_update
    unfold activate_hosted_repos_in_group
    simp [hg, MRes.liftPy, Except.mapError]
  · intro repo_delete st
    unfold uninstall_hosted_repos
    rw [hh]

/-- Concrete instance of C9 at `noRepoRecord`: both accessors fail with
the iteration type error. -/
theorem C9_missing_repositories_type_error_witness :
    noRepoRecord.group_repositories = .error (.typeError "object is not iterable") ∧
    noRepoRecord.hosted_repository_names = .error (.typeError "object is not iterable") := by
  have h := C9_missing_repositories_type_error noRepoRecord [] rfl (Or.inl rfl)
  exact ⟨h.1, h.2.1⟩

/-! Set lemmas for the embedded Python set operations. -/

theorem pySetUnion_mem (xs : List Py) :
    ∀ (s : List Py) (y : Py), y ∈ pySetUnion s xs ↔ y ∈ s ∨ y ∈ xs := by
  induction xs with
  | nil => intro s y; simp [pySetUnion]
  | cons x rest ih =>
    intro s y
    have : pySetUnion s (x :: rest) = pySetUnion (pySetInsert s x) rest := rfl
    rw [this, ih]
    by_cases hx : x ∈ s
    · rw [pySetInsert, if_pos hx]
      constructor
      · rintro (h | h)
        · exact Or.inl h
        · exact Or.inr (List.mem_cons_of_mem _ h)
      · rintro (h | h)
        · exact Or.inl h
        · rcases List.mem_cons.mp h with rfl | h2
          · exact Or.inl hx
          · exact Or.inr h2
    · rw [pySetInsert, if_neg hx]
      constructor
      · rintro (h | h)
        · rcases List.mem_append.mp h with h3 | h3
          · exact Or.inl h3
          · simp only [List.mem_singleton] at h3
            exact Or.inr (h3 ▸ List.mem_cons_self x rest)
        · exact Or.inr (List.mem_cons_of_mem _ h)
      · rintro (h | h)
        · exact Or.inl (List.mem_append.mpr (Or.inl h))
        · rcases List.mem_cons.mp h with rfl | h2
          · exact Or.inl (List.mem_append.mpr (Or.inr (List.mem_singleton.mpr rfl)))
          · exact Or.inr h2
  
theorem pySetUnion_nodup (xs : List Py) :
    ∀ s : List Py, s.Nodup → (pySetUnion s xs).Nodup := by
  induction xs with
  | nil => intro s h; exact h
  | cons x rest ih =>
    intro s h
    have : pySetUnion s (x :: rest) = pySetUnion (pySetInsert s x) rest := rfl
    rw [this]
    apply ih
    by_cases hx : x ∈ s <;> simp [pySetInsert, hx, List.nodup_append, h]
    
theorem pySetOfList_mem (xs : List Py) (y : Py) : y ∈ pySetOfList xs ↔ y ∈ xs := by
  have : pySetOfList xs = pySetUnion [] xs := rfl
  rw [this, pySetUnion_mem]
  simp

theorem pySetOfList_nodup (xs : List Py) : (pySetOfList xs).Nodup := by
  have : pySetOfList xs = pySetUnion [] xs := rfl
  rw [this]
  exact pySetUnion_nodup xs [] List.nodup_nil

theorem unionGroupMembers_spec (groups : List Py) :
    ∀ acc : List Py, (∀ g ∈ groups, ∃ ms, g.get "members" = .ok (.list ms)) →
    ∃ res, unionGroupMembers acc groups = .ok res ∧
      (acc.Nodup → res.Nodup) ∧
      (∀ x, x ∈ res ↔ x ∈ acc ∨
        ∃ g ∈ groups, ∃ ms, g.get "members" = .ok (.list ms) ∧ x ∈ ms) := by
  induction groups with
  | nil =>
    intro acc _
    exact ⟨acc, rfl, fun h => h, by simp⟩
  | cons g rest ih =>
    intro acc hms
    obtain ⟨ms0, hg0⟩ := hms g (List.mem_cons_self g rest)
    obtain ⟨res, hres, hnd, hmem⟩ := ih (pySetUnion acc ms0)
      (fun g hg => hms g (List.mem_cons_of_mem _ hg))
    refine ⟨res, ?_, ?_, ?_⟩
    · unfold unionGroupMembers
      rw [hg0, exbind_ok]
      simp [Py.asList, exbind_ok, hres]
    · intro hacc
      exact hnd (pySetUnion_nodup ms0 acc hacc)
    · intro x
      rw [hmem x, pySetUnion_mem]
      constructor
      · rintro ((h | h) | ⟨g2, hg2, ms2, hms2, hx⟩)
        · exact Or.inl h
        · exact Or.inr ⟨g, List.mem_cons_self g rest, ms0, hg0, h⟩
        · exact Or.inr ⟨g2, List.mem_cons_of_mem _ hg2, ms2, hms2, hx⟩
      · rintro (h | ⟨g2, hg2, ms2, hms2, hx⟩)
        · exact Or.inl (Or.inl h)
        · rcases List.mem_cons.mp hg2 with rfl | hg2r
          · have h12 : Except.ok (Py.list ms0) = (Except.ok (Py.list ms2) : Except Py.Err Py) :=
              hg0.symm.trans hms2
            have hms02 : ms0 = ms2 := by
              injection h12 with h2
              injection h2
            exact Or.inl (Or.inr (by rw [hms02]; exact hx))
          · exact Or.inr ⟨g2, hg2r, ms2, hms2, hx⟩

/-- C7: for a record with its repositories declared,
`hosted_repository_names` is the set union of the names of
repositories declared with type `hosted` and every name appearing in
any group repository's members list, with set semantics: the result
has no duplicates and membership is exactly the union. -/
theorem C7_hosted_repository_names_union (p : InstalledProductVersion) (cdVal reposVal : Py) (repoList : List Py)
    (hcd : p.data.get COMPONENT_VERSIONS_PRODUCT_MAP_KEY = .ok cdVal)
    (hrep : cdVal.get COMPONENT_REPOS_KEY = .ok reposVal)
    (hlist : reposVal.asList = .ok repoList)
    (hdict : ∀ r ∈ repoList, ∃ kvs, r = Py.dict kvs)
    (hmem : ∀ g ∈ repoList, g.get "type" = .ok (.str "group") →
      ∃ ms, g.get "members" = .ok (.list ms)) :
    ∃ s, p.hosted_repository_names = .ok s ∧ s.Nodup ∧
      ∀ x, x ∈ s ↔
        ((∃ r ∈ repoList, r.get "type" = .ok (.str "hosted") ∧ r.get "name" = .ok x) ∨
         (∃ g ∈ repoList, g.get "type" = .ok (.str "group") ∧
            ∃ ms, g.get "members" = .ok (.list ms) ∧ x ∈ ms)) := by
  classical
  have hTypeOk : ∀ r ∈ repoList, ∃ t, r.get "type" = .ok t := by
    intro r hr; obtain ⟨kvs, rfl⟩ := hdict r hr; exact ⟨_, rfl⟩
  have hNameOk : ∀ r ∈ repoList, r.get "name" = .ok ((r.get "name").toOption.getD Py.none) := by
    intro r hr; obtain ⟨kvs, rfl⟩ := hdict r hr
    simp [Py.get, Except.toOption]
  have hfiltG : exceptFilter (fun repo => do
      return ((← repo.get "type") == Py.str "group")) repoList =
      .ok (repoList.filter (fun r => decide (r.get "type" = Except.ok (Py.str "group")))) := by
    apply exceptFilter_ok
    intro r hr
    obtain ⟨t, ht⟩ := hTypeOk r hr
    simp only [ht, exbind_ok, exmap_ok]
    have hiff : (t = Py.str "group") ↔
        ((Except.ok t : Except Py.Err Py) = Except.ok (Py.str "group")) := by simp
    show Except.ok (decide (t = Py.str "group")) = _
    rw [decide_eq_decide.mpr hiff]
  have hfiltH : exceptFilter (fun repo => do
      return ((← repo.get "type") == Py.str "hosted")) repoList =
      .ok (repoList.filter (fun r => decide (r.get "type" = Except.ok (Py.str "hosted")))) := by
    apply exceptFilter_ok
    intro r hr
    obtain ⟨t, ht⟩ := hTypeOk r hr
    simp only [ht, exbind_ok, exmap_ok]
    have hiff : (t = Py.str "hosted") ↔
        ((Except.ok t : Except Py.Err Py) = Except.ok (Py.str "hosted")) := by simp
    show Except.ok (decide (t = Py.str "hosted")) = _
    rw [decide_eq_decide.mpr hiff]
  have hgroups : p.group_repositories =
      .ok (repoList.filter (fun r => decide (r.get "type" = Except.ok (Py.str "group")))) := by
    unfold InstalledProductVersion.group_repositories
    rw [hcd, exbind_ok, hrep, exbind_ok, hlist, exbind_ok, hfiltG]
  have hmapName : exceptMap (fun repo => repo.get "name")
      (repoList.filter (fun r => decide (r.get "type" = Except.ok (Py.str "hosted")))) =
      .ok ((repoList.filter (fun r => decide (r.get "type" = Except.ok (Py.str "hosted")))).map
        (fun r => (r.get "name").toOption.getD Py.none)) := by
    apply exceptMap_ok
    intro r hr
    exact hNameOk r (List.mem_of_mem_filter hr)
  have hspec := unionGroupMembers_spec
    (repoList.filter (fun r => decide (r.get "type" = Except.ok (Py.str "group"))))
    (pySetOfList ((repoList.filter (fun r => decide (r.get "type" = Except.ok (Py.str "hosted")))).map
      (fun r => (r.get "name").toOption.getD Py.none)))
    (by
      intro g hg
      have hmemf := List.mem_filter.mp hg
      exact hmem g hmemf.1 (of_decide_eq_true hmemf.2))
  obtain ⟨res, hres, hnd, hmem2⟩ := hspec
  refine ⟨res, ?_, hnd (pySetOfList_nodup _), ?_⟩
  · unfold InstalledProductVersion.hosted_repository_names
    rw [hcd, exbind_ok, hrep, exbind_ok, hlist, exbind_ok, hfiltH, exbind_ok,
      hmapName, exbind_ok, hgroups, exbind_ok]
    exact hres
  · intro x
    rw [hmem2 x, pySetOfList_mem]
    constructor
    · rintro (hx | ⟨g, hg, ms, hms, hxm⟩)
      · obtain ⟨r, hrf, hrx⟩ := List.mem_map.mp hx
        have hrmem := List.mem_filter.mp hrf
        refine Or.inl ⟨r, hrmem.1, of_decide_eq_true hrmem.2, ?_⟩
        rw [hNameOk r hrmem.1, hrx]
      · have hmemf := List.mem_filter.mp hg
        exact Or.inr ⟨g, hmemf.1, of_decide_eq_true hmemf.2, ms, hms, hxm⟩
    · rintro (⟨r, hr, htype, hname⟩ | ⟨g, hg, htype, ms, hms, hxm⟩)
      · refine Or.inl (List.mem_map.mpr ⟨r, List.mem_filter.mpr ⟨hr, decide_eq_true htype⟩, ?_⟩)
        rw [hname]
        rfl
      · exact Or.inr ⟨g, List.mem_filter.mpr ⟨hg, decide_eq_true htype⟩, ms, hms, hxm⟩

/-- A record declaring one group repository (one member) and the same
member as an explicit hosted repository. -/
def repoRecord : InstalledProductVersion :=
  ⟨"sat", "2.0.0",
   .dict [("component_versions", .dict [
     ("repositories", .list [
       .dict [("name", .str "sat-sle-15sp2"), ("type", .str "group"),
              ("members", .list [.str "sat-2.0.0-sle-15sp2"])],
       .dict [("name", .str "sat-2.0.0-sle-15sp2"), ("type", .str "hosted")]])])], []⟩

/-- Concrete instance of C7 at `repoRecord`: the repo that is both a
hosted declaration and a group member appears exactly once. -/
theorem C7_hosted_repository_names_union_witness :
    repoRecord.hosted_repository_names = .ok [Py.str "sat-2.0.0-sle-15sp2"] ∧
    List.Nodup [Py.str "sat-2.0.0-sle-15sp2"] := by
  obtain ⟨s, h1, h2, _⟩ := C7_hosted_repository_names_union repoRecord _ _ _ rfl rfl rfl
    (by
      intro r hr
      simp only [List.mem_cons, List.not_mem_nil, or_false] at hr
      rcases hr with rfl | rfl
      · exact ⟨_, rfl⟩
      · exact ⟨_, rfl⟩)
    (by
      intro g hg ht
      simp only [List.mem_cons, List.not_mem_nil, or_false] at hg
      rcases hg with rfl | rfl
      · exact ⟨_, rfl⟩
      · exact absurd ht (by decide))
  have heval : repoRecord.hosted_repository_names = .ok [Py.str "sat-2.0.0-sle-15sp2"] := by
    decide
  have hs : s = [Py.str "sat-2.0.0-sle-15sp2"] := Except.ok.inj (h1.symm.trans heval)
  exact ⟨heval, hs ▸ h2⟩

theorem credsRes (secret : SecretOutcome) (sn sns : String) :
    (update_environment_with_nexus_credentials secret sn sns).res = .ok () := by
  cases secret <;> rfl

theorem loadProducts_yaml_error (safe_load : String → Except String Py)
    (comps : List NexusComponent) :
    ∀ cmData : List (String × Py),
    (∀ kv ∈ cmData, ∃ t, kv.2 = Py.str t ∧
      (∀ v, safe_load t = .ok v → ∃ kvs, v = Py.dict kvs)) →
    (∃ kv ∈ cmData, ∀ t, kv.2 = Py.str t → ∃ e, safe_load t = .error e) →
    ∃ m, loadProducts safe_load comps cmData = .error (.yamlError m)
  | [], _, hbad => by
    obtain ⟨kv, hkv, _⟩ := hbad
    exact absurd hkv (List.not_mem_nil kv)
  | (pn, v) :: rest, hwell, hbad => by
    obtain ⟨t, hvt, hdec⟩ := hwell (pn, v) (List.mem_cons_self _ _)
    subst hvt
    cases hsl : safe_load t with
    | error e =>
      refine ⟨e, ?_⟩
      unfold loadProducts
      simp [safeLoadValue, hsl, exbind_ok, exbind_err]
    | ok v0 =>
      obtain ⟨kvs, rfl⟩ := hdec v0 hsl
      have hbadrest : ∃ kv ∈ rest, ∀ t2, kv.2 = Py.str t2 → ∃ e, safe_load t2 = .error e := by
        obtain ⟨kv, hkv, hfail⟩ := hbad
        rcases List.mem_cons.mp hkv with rfl | hkvr
        · obtain ⟨e, he⟩ := hfail t rfl
          rw [hsl] at he
          cases he
        · exact ⟨kv, hkvr, hfail⟩
      obtain ⟨m, hm⟩ := loadProducts_yaml_error safe_load comps rest
        (fun kv hkv => hwell kv (List.mem_cons_of_mem _ hkv)) hbadrest
      refine ⟨m, ?_⟩
      unfold loadProducts
      simp [safeLoadValue, hsl, exbind_ok, hm, exbind_err]

/-- C2: catalog load fails with a CatalogUnavailable-kind error when
the backing registry cannot be reached or contains no data at all, and
with a CatalogCorrupt-kind error when any one product's raw value
cannot be decoded; the corrupt case fails the whole load with no
partial record set, while schema-invalid records are merely filtered
out with one combined notice. -/
theorem C2_catalog_load_error_kinds
    (name nsp sn sns : String) (secret : SecretOutcome)
    (nexus : ComponentsListOutcome)
    (safe_load : String → Except String Py) (validate : Py → Bool) :
    (∀ msg, (productCatalogInit name nsp secret sn sns (.maxRetryError msg)
        nexus safe_load validate).res
      = .error (.productInstall ("Unable to connect to Kubernetes to read " ++
          nsp ++ "/" ++ name ++ " ConfigMap: " ++ msg))) ∧
    ((productCatalogInit name nsp secret sn sns (.ok ⟨Option.none⟩)
        nexus safe_load validate).res
      = .error (.productInstall ("No data found in " ++ nsp ++ "/" ++ name ++ " ConfigMap."))) ∧
    (∀ cmData comps, nexus = ComponentsListOutcome.ok comps →
      (∀ kv ∈ cmData, ∃ t, kv.2 = Py.str t ∧
        (∀ v, safe_load t = .ok v → ∃ kvs, v = Py.dict kvs)) →
      (∃ kv ∈ cmData, ∀ t, kv.2 = Py.str t → ∃ e, safe_load t = .error e) →
      ∃ m, (productCatalogInit name nsp secret sn sns (.ok ⟨Option.some cmData⟩)
          nexus safe_load validate).res
        = .error (.productInstall ("Failed to load ConfigMap data: " ++ m))) ∧
    (∀ cmData comps products, nexus = ComponentsListOutcome.ok comps →
      loadProducts safe_load comps cmData = .ok products →
      (productCatalogInit name nsp secret sn sns (.ok ⟨Option.some cmData⟩)
          nexus safe_load validate).res
        = .ok ⟨products.filter (fun p => p.is_valid validate), []⟩ ∧
      (productCatalogInit name nsp secret sn sns (.ok ⟨Option.some cmData⟩)
          nexus safe_load validate).out
        = (update_environment_with_nexus_credentials secret sn sns).out ++
          (if (products.filter (fun p => !(p.is_valid validate))).isEmpty then [] else
            [Event.print ("The following products have product catalog data that " ++
              "is not understood by the install utility: " ++
              String.intercalate ", "
                ((products.filter (fun p => !(p.is_valid validate))).map
                  InstalledProductVersion.pstr))])) := by
  refine ⟨?_, ?_, ?_, ?_⟩
  · intro msg
    unfold productCatalogInit
    simp [MRes.bind_def, credsRes, MRes.throw]
  · unfold productCatalogInit
    simp [MRes.bind_def, credsRes, MRes.throw]
  · intro cmData comps hnx hwell hbad
    subst hnx
    obtain ⟨m, hm⟩ := loadProducts_yaml_error safe_load comps cmData hwell hbad
    refine ⟨m, ?_⟩
    unfold productCatalogInit
    simp [MRes.bind_def, credsRes, MRes.throw, hm, MRes.pure_def]
  · intro cmData comps products hnx hload
    subst hnx
    have hiff : (∃ x ∈ products, InstalledProductVersion.is_valid validate x = false) ↔
        ¬ ((products.filter (fun p => !(p.is_valid validate))).isEmpty = true) := by
      simp [List.isEmpty_iff, List.filter_eq_nil_iff]
    constructor
    · unfold productCatalogInit
      by_cases hinv : (products.filter (fun p => !(p.is_valid validate))).isEmpty = true <;>
        simp [MRes.bind_def, credsRes, MRes.throw, hload, MRes.pure_def, MRes.emit, hiff, hinv]
    · unfold productCatalogInit
      by_cases hinv : (products.filter (fun p => !(p.is_valid validate))).isEmpty = true <;>
        simp [MRes.bind_def, credsRes, MRes.throw, hload, MRes.pure_def, MRes.emit, hiff, hinv]

/-! Trace characterization of the activation loop. -/

/-- The events of one iteration of the activation loop whose
resolution steps succeed: the update call followed by its outcome
print. -/
def activateStep (repos_list : String → Except Nat (List RepoEntry))
    (raw_group_update : String → Bool → String → Bool → Py → HttpOutcome)
    (g : Py) : List Event :=
  match g.index "members", g.get "name" with
  | .ok mv, .ok nv =>
    (match get_repo_by_name repos_list nv with
     | .ok entry =>
       (match pyJoin "," mv with
        | .ok j =>
          Event.updateGroup entry.name entry.online entry.blobstore_name
            entry.strict_content_type_validation mv ::
          (match raw_group_update entry.name entry.online entry.blobstore_name
              entry.strict_content_type_validation mv with
           | .ok => [Event.print ("Updated group repository " ++ entry.name ++
               " with member repositories: [" ++ j ++ "]")]
           | .httpError code => [Event.print ("Failed to update group repository " ++
               entry.name ++ " with member repositories: [" ++ j ++ "]. Error: " ++
               httpErrStr code)])
        | .error _ => [])
     | .error _ => [])
  | _, _ => []

/-- Whether one iteration's update call failed. -/
def activateStepFailed (repos_list : String → Except Nat (List RepoEntry))
    (raw_group_update : String → Bool → String → Bool → Py → HttpOutcome)
    (g : Py) : Bool :=
  match g.index "members", g.get "name" with
  | .ok mv, .ok nv =>
    (match get_repo_by_name repos_list nv with
     | .ok entry =>
       (match raw_group_update entry.name entry.online entry.blobstore_name
           entry.strict_content_type_validation mv with
        | .ok => false
        | .httpError _ => true)
     | .error _ => false)
  | _, _ => false

theorem activateLoop_spec (repos_list : String → Except Nat (List RepoEntry))
    (raw_group_update : String → Bool → String → Bool → Py → HttpOutcome) :
    ∀ (groups : List Py) (errors : Bool),
    (∀ g ∈ groups, ∃ mv nv entry j, g.index "members" = .ok mv ∧
      g.get "name" = .ok nv ∧ get_repo_by_name repos_list nv = .ok entry ∧
      pyJoin "," mv = .ok j) →
    activateLoop repos_list raw_group_update groups errors =
      ⟨.ok (errors || groups.any (activateStepFailed repos_list raw_group_update)),
       groups.flatMap (activateStep repos_list raw_group_update)⟩
  | [], errors, _ => by simp [activateLoop, MRes.pure_def]
  | g :: rest, errors, h => by
    obtain ⟨mv, nv, entry, j, hmv, hnv, hentry, hj⟩ := h g (List.mem_cons_self _ _)
    unfold activateLoop
    cases hupd : raw_group_update entry.name entry.online entry.blobstore_name
        entry.strict_content_type_validation mv with
    | ok =>
      have ih := activateLoop_spec repos_list raw_group_update rest errors
        (fun g hg => h g (List.mem_cons_of_mem _ hg))
      have hsf : activateStepFailed repos_list raw_group_update g = false := by
        simp [activateStepFailed, hmv, hnv, hentry, hupd]
      simp [MRes.bind_def, MRes.liftPy, hmv, hnv, MRes.liftE, hentry, Except.mapError,
        MRes.emit, hj, hupd, ih, MRes.pure_def, activateStep, hsf,
        List.flatMap_cons, Bool.or_assoc]
    | httpError code =>
      have ih := activateLoop_spec repos_list raw_group_update rest true
        (fun g hg => h g (List.mem_cons_of_mem _ hg))
      have hsf : activateStepFailed repos_list raw_group_update g = true := by
        simp [activateStepFailed, hmv, hnv, hentry, hupd]
      simp [MRes.bind_def, MRes.liftPy, hmv, hnv, MRes.liftE, hentry, Except.mapError,
        MRes.emit, hj, hupd, ih, MRes.pure_def, activateStep, hsf,
        List.flatMap_cons, Bool.or_assoc]

theorem activate_out_eq (p : InstalledProductVersion)
    (repos_list : String → Except Nat (List RepoEntry))
    (raw_group_update : String → Bool → String → Bool → Py → HttpOutcome)
    (groups : List Py)
    (hgr : p.group_repositories = .ok groups)
    (hok : ∀ g ∈ groups, ∃ mv nv entry j, g.index "members" = .ok mv ∧
      g.get "name" = .ok nv ∧ get_repo_by_name repos_list nv = .ok entry ∧
      pyJoin "," mv = .ok j) :
    (activate_hosted_repos_in_group p repos_list raw_group_update).out
      = groups.flatMap (activateStep repos_list raw_group_update) := by
  have hloop := activateLoop_spec repos_list raw_group_update groups false hok
  unfold activate_hosted_repos_in_group
  by_cases hfl : groups.any (activateStepFailed repos_list raw_group_update) <;>
    simp [MRes.bind_def, MRes.liftPy, hgr, Except.mapError, hloop, hfl,
      MRes.throw, MRes.pure_def]

theorem activate_update_mem (p : InstalledProductVersion)
    (repos_list : String → Except Nat (List RepoEntry))
    (raw_group_update : String → Bool → String → Bool → Py → HttpOutcome)
    (groups : List Py)
    (hgr : p.group_repositories = .ok groups)
    (hok : ∀ g ∈ groups, ∃ mv nv entry j, g.index "members" = .ok mv ∧
      g.get "name" = .ok nv ∧ get_repo_by_name repos_list nv = .ok entry ∧
      pyJoin "," mv = .ok j) :
    ∀ g ∈ groups, ∀ mv nv entry, g.index "members" = .ok mv →
      g.get "name" = .ok nv → get_repo_by_name repos_list nv = .ok entry →
      Event.updateGroup entry.name entry.online entry.blobstore_name
        entry.strict_content_type_validation mv ∈
        (activate_hosted_repos_in_group p repos_list raw_group_update).out := by
  intro g hgmem mv nv entry hmv hnv hentry
  rw [activate_out_eq p repos_list raw_group_update groups hgr hok]
  apply List.mem_flatMap.mpr
  refine ⟨g, hgmem, ?_⟩
  obtain ⟨mv0, nv0, entry0, j0, hmv0, hnv0, hentry0, hj0⟩ := hok g hgmem
  obtain rfl : mv = mv0 := Except.ok.inj (hmv.symm.trans hmv0)
  obtain rfl : nv = nv0 := Except.ok.inj (hnv.symm.trans hnv0)
  obtain rfl : entry = entry0 := Except.ok.inj (hentry.symm.trans hentry0)
  unfold activateStep
  rw [hmv0, hnv0]
  simp only [hentry0, hj0]
  cases hupd : raw_group_update entry.name entry.online entry.blobstore_name
      entry.strict_content_type_validation mv <;> simp [hupd]

theorem activate_res_eq (p : InstalledProductVersion)
    (repos_list : String → Except Nat (List RepoEntry))
    (raw_group_update : String → Bool → String → Bool → Py → HttpOutcome)
    (groups : List Py)
    (hgr : p.group_repositories = .ok groups)
    (hok : ∀ g ∈ groups, ∃ mv nv entry j, g.index "members" = .ok mv ∧
      g.get "name" = .ok nv ∧ get_repo_by_name repos_list nv = .ok entry ∧
      pyJoin "," mv = .ok j) :
    (activate_hosted_repos_in_group p repos_list raw_group_update).res =
      if groups.any (activateStepFailed repos_list raw_group_update) then
        .error (.productInstall ("One or more errors occurred activating repositories for " ++
          p.name ++ " " ++ p.version ++ "."))
      else .ok () := by
  have hloop := activateLoop_spec repos_list raw_group_update groups false hok
  unfold activate_hosted_repos_in_group
  by_cases hfl : groups.any (activateStepFailed repos_list raw_group_update) <;>
    simp [MRes.bind_def, MRes.liftPy, hgr, Except.mapError, hloop, hfl,
      MRes.throw, MRes.pure_def]

/-- C5: activation sets each declared group repository's member list to
exactly the member list the catalog records for that group repository —
every update call carries exactly some declared group's members value,
and each declared group gets an update with exactly its members value,
whatever members the repository held before (the repository entry and
the update oracle are universally quantified). -/
theorem C5_activation_replaces_members (p : InstalledProductVersion)
    (repos_list : String → Except Nat (List RepoEntry))
    (raw_group_update : String → Bool → String → Bool → Py → HttpOutcome)
    (groups : List Py)
    (hgr : p.group_repositories = .ok groups)
    (hok : ∀ g ∈ groups, ∃ mv nv entry j, g.index "members" = .ok mv ∧
      g.get "name" = .ok nv ∧ get_repo_by_name repos_list nv = .ok entry ∧
      pyJoin "," mv = .ok j) :
    (∀ nm onl bs strict mv,
      Event.updateGroup nm onl bs strict mv ∈
        (activate_hosted_repos_in_group p repos_list raw_group_update).out →
      ∃ g ∈ groups, g.index "members" = .ok mv) ∧
    (∀ g ∈ groups, ∀ mv nv entry, g.index "members" = .ok mv →
      g.get "name" = .ok nv → get_repo_by_name repos_list nv = .ok entry →
      Event.updateGroup entry.name entry.online entry.blobstore_name
        entry.strict_content_type_validation mv ∈
        (activate_hosted_repos_in_group p repos_list raw_group_update).out) := by
  constructor
  · intro nm onl bs strict mv hmem
    rw [activate_out_eq p repos_list raw_group_update groups hgr hok] at hmem
    obtain ⟨g, hgmem, hstep⟩ := List.mem_flatMap.mp hmem
    obtain ⟨mv0, nv0, entry0, j0, hmv0, hnv0, hentry0, hj0⟩ := hok g hgmem
    unfold activateStep at hstep
    rw [hmv0, hnv0] at hstep
    simp only [hentry0, hj0] at hstep
    cases hupd : raw_group_update entry0.name entry0.online entry0.blobstore_name
        entry0.strict_content_type_validation mv0 with
    | ok =>
      rw [hupd] at hstep
      simp only [List.mem_cons, List.mem_singleton] at hstep
      rcases hstep with heq | heq
      · injection heq with h1 h2 h3 h4 h5
        exact ⟨g, hgmem, h5 ▸ hmv0⟩
      · exact absurd heq (by simp)
    | httpError code =>
      rw [hupd] at hstep
      simp only [List.mem_cons, List.mem_singleton] at hstep
      rcases hstep with heq | heq
      · injection heq with h1 h2 h3 h4 h5
        exact ⟨g, hgmem, h5 ▸ hmv0⟩
      · exact absurd heq (by simp)
  · exact activate_update_mem p repos_list raw_group_update groups hgr hok

/-- An external repository listing whose group entry holds a prior
member absent from the catalog-declared member list. -/
def oneGroupReposList : String → Except Nat (List RepoEntry) := fun _ =>
  .ok [⟨"sat-sle-15sp2", true, "default", true, ["old-member"]⟩]

/-- Concrete instance of C5 at `repoRecord`: the update call carries
exactly the declared member list even though the external entry's
prior member list is different. -/
theorem C5_activation_replaces_members_witness :
    Event.updateGroup "sat-sle-15sp2" true "default" true
      (Py.list [Py.str "sat-2.0.0-sle-15sp2"]) ∈
      (activate_hosted_repos_in_group repoRecord oneGroupReposList
        (fun _ _ _ _ _ => .ok)).out := by
  have h := (C5_activation_replaces_members repoRecord oneGroupReposList
    (fun _ _ _ _ _ => .ok)
    [Py.dict [("name", .str "sat-sle-15sp2"), ("type", .str "group"),
              ("members", .list [.str "sat-2.0.0-sle-15sp2"])]]
    rfl
    (by
      intro g hg
      simp only [List.mem_singleton] at hg
      subst hg
      exact ⟨_, _, _, _, rfl, rfl, rfl, rfl⟩)).2
    (Py.dict [("name", .str "sat-sle-15sp2"), ("type", .str "group"),
              ("members", .list [.str "sat-2.0.0-sle-15sp2"])])
    (List.mem_singleton.mpr rfl) _ _ _ rfl rfl rfl
  exact h

/-- A record declaring two group repositories. -/
def twoGroupRecord : InstalledProductVersion :=
  ⟨"sat", "2.0.0",
   .dict [("component_versions", .dict [
     ("repositories", .list [
       .dict [("name", .str "sat-sle-15sp2"), ("type", .str "group"),
              ("members", .list [.str "sat-2.0.0-sle-15sp2"])],
       .dict [("name", .str "cos-sle-15sp2"), ("type", .str "group"),
              ("members", .list [.str "cos-2.0.0-sle-15sp2"])]])])], []⟩

/-- An external repository listing that cannot resolve the first group
repository but resolves the second. -/
def failFirstReposList : String → Except Nat (List RepoEntry) := fun rx =>
  if rx == "^sat-sle-15sp2$" then .ok []
  else .ok [⟨"cos-sle-15sp2", true, "default", true, []⟩]

/-- Counterexample to C3 as stated: on `twoGroupRecord`, a failure to
resolve the first group repository by name raises its own error at
once with an empty trace — the second group repository is never
attempted and no aggregate error naming the product and version is
raised. -/
theorem C3_resolution_abort_counterexample :
    activate_hosted_repos_in_group twoGroupRecord failFirstReposList
      (fun _ _ _ _ _ => .ok)
      = ⟨.error (.productInstall "No repository named sat-sle-15sp2 found."), []⟩ := by
  rfl

/-- C3 (amended): failures of the member-list update call are collected
without aborting — every declared group repository's update is still
attempted and one aggregate error naming the product and version is
raised at the end exactly when at least one update call failed; a
failure to resolve a group repository by name, however, aborts the
iteration immediately with its own error. -/
theorem C3_update_failures_collected (p : InstalledProductVersion)
    (repos_list : String → Except Nat (List RepoEntry))
    (raw_group_update : String → Bool → String → Bool → Py → HttpOutcome)
    (groups : List Py)
    (hgr : p.group_repositories = .ok groups)
    (hok : ∀ g ∈ groups, ∃ mv nv entry j, g.index "members" = .ok mv ∧
      g.get "name" = .ok nv ∧ get_repo_by_name repos_list nv = .ok entry ∧
      pyJoin "," mv = .ok j) :
    (∀ g ∈ groups, ∀ mv nv entry, g.index "members" = .ok mv →
      g.get "name" = .ok nv → get_repo_by_name repos_list nv = .ok entry →
      Event.updateGroup entry.name entry.online entry.blobstore_name
        entry.strict_content_type_validation mv ∈
        (activate_hosted_repos_in_group p repos_list raw_group_update).out) ∧
    ((activate_hosted_repos_in_group p repos_list raw_group_update).res =
      if groups.any (activateStepFailed repos_list raw_group_update) then
        .error (.productInstall ("One or more errors occurred activating repositories for " ++
          p.name ++ " " ++ p.version ++ "."))
      else .ok ()) :=
  ⟨activate_update_mem p repos_list raw_group_update groups hgr hok,
   activate_res_eq p repos_list raw_group_update groups hgr hok⟩

/-- An external repository listing resolving both group repositories. -/
def twoGroupReposList : String → Except Nat (List RepoEntry) := fun rx =>
  if rx == "^sat-sle-15sp2$" then .ok [⟨"sat-sle-15sp2", true, "default", true, []⟩]
  else .ok [⟨"cos-sle-15sp2", true, "default", true, []⟩]

/-- An update oracle failing for the first group repository only. -/
def failFirstUpdate : String → Bool → String → Bool → Py → HttpOutcome :=
  fun nm _ _ _ _ => if nm == "sat-sle-15sp2" then .httpError 500 else .ok

/-- Concrete instance of the amended C3 at `twoGroupRecord`: the first
update call fails, the second group repository is still attempted, and
the aggregate error naming the product and version is raised. -/
theorem C3_update_failures_collected_witness :
    Event.updateGroup "cos-sle-15sp2" true "default" true
      (Py.list [Py.str "cos-2.0.0-sle-15sp2"]) ∈
      (activate_hosted_repos_in_group twoGroupRecord twoGroupReposList failFirstUpdate).out ∧
    (activate_hosted_repos_in_group twoGroupRecord twoGroupReposList failFirstUpdate).res =
      .error (.productInstall
        "One or more errors occurred activating repositories for sat 2.0.0.") := by
  have h := C3_update_failures_collected twoGroupRecord twoGroupReposList failFirstUpdate
    [Py.dict [("name", .str "sat-sle-15sp2"), ("type", .str "group"),
              ("members", .list [.str "sat-2.0.0-sle-15sp2"])],
     Py.dict [("name", .str "cos-sle-15sp2"), ("type", .str "group"),
              ("members", .list [.str "cos-2.0.0-sle-15sp2"])]]
    rfl
    (by
      intro g hg
      simp only [List.mem_cons, List.not_mem_nil, or_false] at hg
      rcases hg with rfl | rfl
      · exact ⟨_, _, _, _, rfl, rfl, rfl, rfl⟩
      · exact ⟨_, _, _, _, rfl, rfl, rfl, rfl⟩)
  constructor
  · exact h.1
      (Py.dict [("name", .str "cos-sle-15sp2"), ("type", .str "group"),
                ("members", .list [.str "cos-2.0.0-sle-15sp2"])])
      (by simp) _ _ _ rfl rfl rfl
  · rw [h.2]
    rfl

/-! State lemmas for the natural repository-delete semantics. -/

theorem natRepoDelete_state (st : RepoState) (nm : Py) :
    (natRepoDelete st nm).2 = st.filter (fun x => x ≠ nm) := by
  unfold natRepoDelete
  by_cases h : nm ∈ st
  · simp [h]
  · simp only [h, if_neg, if_false]
    rw [List.filter_eq_self.mpr]
    intro x hx
    simp only [ne_eq]
    exact decide_eq_true fun heq => h (heq ▸ hx)

theorem uninstallReposLoop_nat_flag : ∀ (names : List Py) (st : RepoState) (errors : Bool),
    (uninstallReposLoop natRepoDelete names st errors).2.1 = errors
  | [], st, errors => rfl
  | nm :: rest, st, errors => by
    unfold uninstallReposLoop
    by_cases h : nm ∈ st <;>
      simp [natRepoDelete, h, uninstallReposLoop_nat_flag rest]

theorem uninstallReposLoop_nat_state_mem :
    ∀ (names : List Py) (st : RepoState) (errors : Bool) (x : Py),
    x ∈ (uninstallReposLoop natRepoDelete names st errors).2.2 ↔ (x ∈ st ∧ x ∉ names)
  | [], st, errors, x => by simp [uninstallReposLoop]
  | nm :: rest, st, errors, x => by
    unfold uninstallReposLoop
    have hst2 : (natRepoDelete st nm).2 = st.filter (fun y => y ≠ nm) := natRepoDelete_state st nm
    by_cases h : nm ∈ st
    · simp only [natRepoDelete, h, if_true, if_pos]
      rw [show (uninstallReposLoop natRepoDelete rest (st.filter fun y => decide (y ≠ nm)) errors) =
            (uninstallReposLoop natRepoDelete rest (st.filter fun y => decide (y ≠ nm)) errors) from rfl]
      have ih := uninstallReposLoop_nat_state_mem rest (st.filter fun y => decide (y ≠ nm)) errors x
      simp only [ih, List.mem_filter, decide_eq_true_eq, ne_eq, List.mem_cons]
      constructor
      · rintro ⟨⟨hx, hne⟩, hnr⟩
        exact ⟨hx, fun hc => hc.elim (fun he => hne he) hnr⟩
      · rintro ⟨hx, hno⟩
        exact ⟨⟨hx, fun he => hno (Or.inl he)⟩, fun hr => hno (Or.inr hr)⟩
    · have ih := uninstallReposLoop_nat_state_mem rest st errors x
      simp only [natRepoDelete, h, if_false, if_neg, not_false_iff, ite_false,
        Nat.reduceBEq, reduceIte, ih, List.mem_cons]
      constructor
      · rintro ⟨hx, hnr⟩
        refine ⟨hx, fun hc => ?_⟩
        rcases hc with rfl | hr
        · exact h hx
        · exact hnr hr
      · rintro ⟨hx, hno⟩
        exact ⟨hx, fun hr => hno (Or.inr hr)⟩

theorem uninstallReposLoop_nat_absent :
    ∀ (names : List Py) (st : RepoState) (errors : Bool), (∀ n ∈ names, n ∉ st) →
    uninstallReposLoop natRepoDelete names st errors =
      (names.flatMap (fun nm => [Event.deleteRepo nm,
        Event.print (pyStr nm ++ " has already been removed.")]), errors, st)
  | [], st, errors, _ => rfl
  | nm :: rest, st, errors, h => by
    have hnm : nm ∉ st := h nm (List.mem_cons_self _ _)
    unfold uninstallReposLoop
    have ih := uninstallReposLoop_nat_absent rest st errors
      (fun n hn => h n (List.mem_cons_of_mem _ hn))
    simp [natRepoDelete, hnm, ih]

/-- C6: hosted-repository removal is idempotent under the natural
external semantics (deleting a present repository removes it, deleting
an absent one answers 404, and 404 is success-with-notice): both
consecutive invocations succeed, and the second observes only
delete calls answered with already-removed notices. -/
theorem C6_uninstall_hosted_repos_idempotent (p : InstalledProductVersion) (names : List Py) (st : RepoState)
    (hn : p.hosted_repository_names = .ok names) :
    (uninstall_hosted_repos p natRepoDelete st).1.res = .ok () ∧
    (uninstall_hosted_repos p natRepoDelete
        (uninstall_hosted_repos p natRepoDelete st).2).1.res = .ok () ∧
    (uninstall_hosted_repos p natRepoDelete
        (uninstall_hosted_repos p natRepoDelete st).2).1.out =
      names.flatMap (fun nm => [Event.deleteRepo nm,
        Event.print (pyStr nm ++ " has already been removed.")]) := by
  have hflag1 := uninstallReposLoop_nat_flag names st false
  rcases hloop1 : uninstallReposLoop natRepoDelete names st false with ⟨evs1, flag1, st1⟩
  rw [hloop1] at hflag1
  simp only at hflag1
  subst hflag1
  have hst1 : ∀ n ∈ names, n ∉ st1 := by
    intro n hn2 hmem
    have := (uninstallReposLoop_nat_state_mem names st false n).mp (by rw [hloop1]; exact hmem)
    exact this.2 hn2
  have habs := uninstallReposLoop_nat_absent names st1 false hst1
  have hfirst : uninstall_hosted_repos p natRepoDelete st = (⟨.ok (), evs1⟩, st1) := by
    unfold uninstall_hosted_repos
    rw [hn]
    simp [hloop1]
  refine ⟨by rw [hfirst], ?_, ?_⟩ <;>
  · rw [hfirst]
    unfold uninstall_hosted_repos
    rw [hn]
    simp [habs]

/-- Concrete instance of C6 at `repoRecord`: two consecutive removals
both succeed and the second sees one already-removed notice. -/
theorem C6_uninstall_hosted_repos_idempotent_witness :
    (uninstall_hosted_repos repoRecord natRepoDelete
        [Py.str "sat-2.0.0-sle-15sp2", Py.str "unrelated"]).1.res = .ok () ∧
    (uninstall_hosted_repos repoRecord natRepoDelete
        (uninstall_hosted_repos repoRecord natRepoDelete
          [Py.str "sat-2.0.0-sle-15sp2", Py.str "unrelated"]).2).1.res = .ok () ∧
    (uninstall_hosted_repos repoRecord natRepoDelete
        (uninstall_hosted_repos repoRecord natRepoDelete
          [Py.str "sat-2.0.0-sle-15sp2", Py.str "unrelated"]).2).1.out =
      [Event.deleteRepo (Py.str "sat-2.0.0-sle-15sp2"),
       Event.print "sat-2.0.0-sle-15sp2 has already been removed."] := by
  have h := C6_uninstall_hosted_repos_idempotent repoRecord
    [Py.str "sat-2.0.0-sle-15sp2"]
    [Py.str "sat-2.0.0-sle-15sp2", Py.str "unrelated"] (by decide)
  simpa using h

/-- C8: a chart-removal request where zero of the target's declared
charts resolve to a component id in the fetched component listing
(including zero declared charts) returns successfully with the single
no-charts-to-remove notice appended to the resolution step's output
(which is empty, or the no-charts-in-configmap notice when the record
declares no charts); the state is unchanged and no chart deletion,
config-map rewrite or catalog mutation event is emitted. -/
theorem C8_no_charts_resolved_skips_mutation (st : CatalogState) (name version : String)
    (product : InstalledProductVersion)
    (component_delete : String → HttpOutcome)
    (read_config_map : K8sReadOutcome)
    (safe_load : String → Except String Py)
    (catalog_update_exit : String → String → Py → Nat)
    (hget : get_product st.products name version = .ok product)
    (hzero : (get_helm_chart_nexus_component_ids product).res = .ok Option.none ∨
             (get_helm_chart_nexus_component_ids product).res = .ok (Option.some [])) :
    remove_helm_charts st name version component_delete read_config_map
        safe_load catalog_update_exit
      = (st, ⟨.ok (), (get_helm_chart_nexus_component_ids product).out ++
          [.print ("No helm charts found to remove for " ++ name ++ ":" ++ version)]⟩) ∧
    ((get_helm_chart_nexus_component_ids product).out = [] ∨
     (get_helm_chart_nexus_component_ids product).out =
       [.print ("No helm charts found in the configmap data for " ++
         product.name ++ ":" ++ product.version)]) := by
  constructor
  · unfold remove_helm_charts
    rcases hzero with h | h <;> simp [hget, h]
  · unfold get_helm_chart_nexus_component_ids
    rcases hhc : product.helm_charts with e | charts
    · simp
    · cases charts with
      | nil => simp
      | cons c cs => simp

/-- A record declaring one chart that matches nothing in the (empty)
nexus component listing. -/
def chartRecordNoMatch : InstalledProductVersion :=
  ⟨"prodC", "1.0", .dict [("component_versions", .dict [("helm", .list
      [.dict [("name", .str "chart1"), ("version", .str "1.0.0")]])])], []⟩

/-- Concrete instance of C8 at `chartRecordNoMatch`: even with failing
external oracles, the operation returns at once with the single notice
and touches nothing. -/
theorem C8_no_charts_resolved_skips_mutation_witness :
    remove_helm_charts ⟨[chartRecordNoMatch], []⟩ "prodC" "1.0"
        (fun _ => .httpError 500) (.maxRetryError "unreachable")
        (fun _ => .error "bad yaml") (fun _ _ _ => 1)
      = (⟨[chartRecordNoMatch], []⟩, ⟨.ok (),
          [Event.print "No helm charts found to remove for prodC:1.0"]⟩) := by
  have h := C8_no_charts_resolved_skips_mutation ⟨[chartRecordNoMatch], []⟩ "prodC" "1.0"
    chartRecordNoMatch (fun _ => .httpError 500) (.maxRetryError "unreachable")
    (fun _ => .error "bad yaml") (fun _ _ _ => 1) rfl (Or.inr rfl)
  simpa using h.1

/-! Trace characterization of the docker-image removal loop. -/

/-- Whether record `q` declares the docker image (pure form of
`sharesDockerImage` on records whose accessor succeeds). -/
def sharesImageB (q : InstalledProductVersion) (n v : Py) : Bool :=
  match q.docker_images with
  | .ok imgs => imgs.any fun img => img.1 == n && img.2 == v
  | .error _ => false

/-- The events of one iteration of the docker-image removal loop. -/
def imageStep (other_products : List InstalledProductVersion)
    (docker_delete : Py → Py → HttpOutcome) (img : Py × Py) : List Event :=
  if (other_products.filter fun q => sharesImageB q img.1 img.2).isEmpty then
    Event.deleteImage img.1 img.2 ::
    (match docker_delete img.1 img.2 with
     | .ok => [Event.print ("Removed Docker image " ++ pyStr img.1 ++ ":" ++ pyStr img.2)]
     | .httpError code =>
       if code == 404 then
         [Event.print (pyStr img.1 ++ ":" ++ pyStr img.2 ++ " has already been removed.")]
       else
         [Event.print ("Failed to remove " ++ pyStr img.1 ++ ":" ++ pyStr img.2 ++ ": " ++
           ("Failed to remove image " ++ (pyStr img.1 ++ ":" ++ pyStr img.2) ++ ": " ++
             httpErrStr code))])
  else
    [Event.print (sharedImageNotice img.1 img.2
      (other_products.filter fun q => sharesImageB q img.1 img.2))]

/-- Whether one iteration of the removal loop records a failure. -/
def imageStepFailed (other_products : List InstalledProductVersion)
    (docker_delete : Py → Py → HttpOutcome) (img : Py × Py) : Bool :=
  if (other_products.filter fun q => sharesImageB q img.1 img.2).isEmpty then
    match docker_delete img.1 img.2 with
    | .ok => false
    | .httpError code => !(code == 404)
  else false

theorem sharesDockerImage_ok (q : InstalledProductVersion) (n v : Py)
    (h : ∃ l, q.docker_images = .ok l) :
    sharesDockerImage q n v = .ok (sharesImageB q n v) := by
  obtain ⟨l, hl⟩ := h
  unfold sharesDockerImage sharesImageB
  rw [hl, exbind_ok]
  rfl

theorem otherProducts_filter_ok (other_products : List InstalledProductVersion) (n v : Py)
    (h : ∀ q ∈ other_products, ∃ l, q.docker_images = .ok l) :
    otherProductsWithSameDockerImage other_products n v =
      .ok (other_products.filter fun q => sharesImageB q n v) := by
  unfold otherProductsWithSameDockerImage
  exact exceptFilter_ok other_products fun q hq => sharesDockerImage_ok q n v (h q hq)

theorem removeImagesLoop_spec (other_products : List InstalledProductVersion)
    (docker_delete : Py → Py → HttpOutcome)
    (hoth : ∀ q ∈ other_products, ∃ l, q.docker_images = .ok l) :
    ∀ (imgs : List (Py × Py)) (errors : Bool),
    removeImagesLoop other_products docker_delete imgs errors =
      ⟨.ok (errors || imgs.any (imageStepFailed other_products docker_delete)),
       imgs.flatMap (imageStep other_products docker_delete)⟩
  | [], errors => by simp [removeImagesLoop, MRes.pure_def]
  | img :: rest, errors => by
    have hfil := otherProducts_filter_ok other_products img.1 img.2 hoth
    unfold removeImagesLoop
    by_cases hsh : (other_products.filter fun q => sharesImageB q img.1 img.2).isEmpty
    · cases hdel : docker_delete img.1 img.2 with
      | ok =>
        have hstep : imageStep other_products docker_delete img =
            [Event.deleteImage img.1 img.2,
             Event.print ("Removed Docker image " ++ pyStr img.1 ++ ":" ++ pyStr img.2)] := by
          unfold imageStep
          rw [hsh, hdel]
          rfl
        have hfail : imageStepFailed other_products docker_delete img = false := by
          unfold imageStepFailed
          rw [hsh, hdel]
          rfl
        have ih := removeImagesLoop_spec other_products docker_delete hoth rest errors
        have hshP : ∀ a ∈ other_products, sharesImageB a img.1 img.2 = false := by
          simpa [List.isEmpty_iff, List.filter_eq_nil_iff] using hsh
        simp [MRes.bind_def, MRes.liftPy, hfil, Except.mapError, hsh, MRes.emit,
          MRes.catchPIE, uninstall_docker_image, hdel, MRes.throw, MRes.pure_def, ih,
          hstep, hfail, List.flatMap_cons, Bool.or_assoc]
        split
        · exact ⟨rfl, rfl⟩
        · next hcon => exact absurd hshP hcon
      | httpError code =>
        by_cases h404 : code == 404
        · have hstep : imageStep other_products docker_delete img =
              [Event.deleteImage img.1 img.2,
               Event.print (pyStr img.1 ++ ":" ++ pyStr img.2 ++ " has already been removed.")] := by
            unfold imageStep
            rw [hsh, hdel]
            simp [h404]
          have hfail : imageStepFailed other_products docker_delete img = false := by
            unfold imageStepFailed
            rw [hsh, hdel]
            simp [h404]
          have ih := removeImagesLoop_spec other_products docker_delete hoth rest errors
          have hshP : ∀ a ∈ other_products, sharesImageB a img.1 img.2 = false := by
            simpa [List.isEmpty_iff, List.filter_eq_nil_iff] using hsh
          simp [MRes.bind_def, MRes.liftPy, hfil, Except.mapError, hsh, MRes.emit,
            MRes.catchPIE, uninstall_docker_image, hdel, h404, MRes.throw, MRes.pure_def, ih,
            hstep, hfail, List.flatMap_cons, Bool.or_assoc]
          split
          · exact ⟨rfl, rfl⟩
          · next hcon => exact absurd hshP hcon
        · have hstep : imageStep other_products docker_delete img =
              [Event.deleteImage img.1 img.2,
               Event.print ("Failed to remove " ++ pyStr img.1 ++ ":" ++ pyStr img.2 ++ ": " ++
                 ("Failed to remove image " ++ (pyStr img.1 ++ ":" ++ pyStr img.2) ++ ": " ++
                   httpErrStr code))] := by
            unfold imageStep
            rw [hsh, hdel]
            simp [h404]
          have hfail : imageStepFailed other_products docker_delete img = true := by
            unfold imageStepFailed
            rw [hsh, hdel]
            simp [h404]
          have ih := removeImagesLoop_spec other_products docker_delete hoth rest true
          have hshP : ∀ a ∈ other_products, sharesImageB a img.1 img.2 = false := by
            simpa [List.isEmpty_iff, List.filter_eq_nil_iff] using hsh
          simp [MRes.bind_def, MRes.liftPy, hfil, Except.mapError, hsh, MRes.emit,
            MRes.catchPIE, uninstall_docker_image, hdel, h404, MRes.throw, MRes.pure_def, ih,
            hstep, hfail, List.flatMap_cons, Bool.or_assoc]
          split
          · exact ⟨rfl, rfl⟩
          · next hcon => exact absurd hshP hcon
    · have hshF : (other_products.filter fun q => sharesImageB q img.1 img.2).isEmpty = false := by
        simpa using hsh
      have hstep : imageStep other_products docker_delete img =
          [Event.print (sharedImageNotice img.1 img.2
            (other_products.filter fun q => sharesImageB q img.1 img.2))] := by
        unfold imageStep
        rw [hshF]
        rfl
      have hfail : imageStepFailed other_products docker_delete img = false := by
        unfold imageStepFailed
        rw [hshF]
        rfl
      have ih := removeImagesLoop_spec other_products docker_delete hoth rest errors
      have hshN : ¬ ∀ a ∈ other_products, sharesImageB a img.1 img.2 = false := by
        intro hc
        exact hsh (by simpa [List.isEmpty_iff, List.filter_eq_nil_iff] using hc)
      simp [MRes.bind_def, MRes.liftPy, hfil, Except.mapError, hshF, MRes.emit,
        MRes.throw, MRes.pure_def, ih, hstep, hfail, List.flatMap_cons, Bool.or_assoc]
      split
      · next hcon => exact absurd hcon hshN
      · exact ⟨rfl, rfl⟩

theorem remove_images_out (products : List InstalledProductVersion)
    (name version : String) (docker_delete : Py → Py → HttpOutcome)
    (product : InstalledProductVersion) (imgs : List (Py × Py))
    (hget : get_product products name version = .ok product)
    (himgs : product.docker_images = .ok imgs)
    (hoth : ∀ q ∈ dockerOtherProducts products product, ∃ l, q.docker_images = .ok l) :
    (remove_product_docker_images products name version docker_delete).out =
      imgs.flatMap (imageStep (dockerOtherProducts products product) docker_delete) := by
  have hloop := removeImagesLoop_spec (dockerOtherProducts products product)
    docker_delete hoth imgs false
  unfold remove_product_docker_images
  by_cases herr : imgs.any (imageStepFailed (dockerOtherProducts products product) docker_delete) <;>
    simp [MRes.bind_def, MRes.liftE, MRes.liftPy, hget, himgs, Except.mapError,
      hloop, herr, MRes.throw, MRes.pure_def]

theorem flatMap_count_delete (other_products : List InstalledProductVersion)
    (docker_delete : Py → Py → HttpOutcome) (n v : Py) :
    ∀ imgs : List (Py × Py),
    (imgs.flatMap (imageStep other_products docker_delete)).count (Event.deleteImage n v) =
      if (other_products.filter fun q => sharesImageB q n v).isEmpty then
        imgs.count (n, v) else 0
  | [] => by simp
  | img :: rest => by
    have ih := flatMap_count_delete other_products docker_delete n v rest
    rw [List.flatMap_cons, List.count_append, ih]
    by_cases himg : img = (n, v)
    · subst himg
      by_cases hs : (other_products.filter fun q => sharesImageB q n v).isEmpty
      · have hstep : (imageStep other_products docker_delete (n, v)).count
            (Event.deleteImage n v) = 1 := by
          unfold imageStep
          rw [hs]
          cases hdel : docker_delete n v with
          | ok => simp [List.count_cons, List.count_nil]
          | httpError code =>
            by_cases h404 : code == 404 <;> simp [h404, List.count_cons, List.count_nil]
        rw [hstep]
        simp only [hs, if_true, ite_true]
        simp [List.count_cons]
        omega
      · have hstep : (imageStep other_products docker_delete (n, v)).count
            (Event.deleteImage n v) = 0 := by
          unfold imageStep
          rw [show (other_products.filter fun q => sharesImageB q n v).isEmpty = false by
            simpa using hs]
          simp [List.count_cons]
        rw [hstep]
        simp only [hs, if_false, ite_false]
        simp
    · have hstep : (imageStep other_products docker_delete img).count
          (Event.deleteImage n v) = 0 := by
        unfold imageStep
        have hne : ¬ (Event.deleteImage img.1 img.2 = Event.deleteImage n v) := by
          intro hc
          injection hc with h1 h2
          exact himg (Prod.ext h1 h2)
        by_cases hs : (other_products.filter fun q => sharesImageB q img.1 img.2).isEmpty
        · rw [hs]
          cases hdel : docker_delete img.1 img.2 with
          | ok => simp [List.count_cons, hne]
          | httpError code =>
            by_cases h404 : code == 404 <;> simp [h404, List.count_cons, hne]
        · rw [show (other_products.filter fun q => sharesImageB q img.1 img.2).isEmpty = false by
            simpa using hs]
          simp [List.count_cons]
      rw [hstep]
      simp [List.count_cons, himg]

/-- C1 (amended, docker class): with the target resolved and every
record's image accessor succeeding, the removal trace is exactly the
per-image steps in declared order; an image also declared by at least
one other record is never deleted externally and its processing step
is exactly the one shared-image notice listing the other owning
records name-version comma-joined in record-set order; an image
declared (once) by the target alone is deleted externally exactly
once.  (Helm charts have no such sharing check — see the
counterexample.) -/
theorem C1_docker_image_sharing (products : List InstalledProductVersion)
    (name version : String) (docker_delete : Py → Py → HttpOutcome)
    (product : InstalledProductVersion) (imgs : List (Py × Py))
    (hget : get_product products name version = .ok product)
    (himgs : product.docker_images = .ok imgs)
    (hoth : ∀ q ∈ dockerOtherProducts products product, ∃ l, q.docker_images = .ok l)
    (n v : Py) (hmem : (n, v) ∈ imgs) (honce : imgs.count (n, v) = 1) :
    ((remove_product_docker_images products name version docker_delete).out =
      imgs.flatMap (imageStep (dockerOtherProducts products product) docker_delete)) ∧
    ((dockerOtherProducts products product).filter (fun q => sharesImageB q n v) ≠ [] →
      ((remove_product_docker_images products name version docker_delete).out.count
          (Event.deleteImage n v) = 0 ∧
        imageStep (dockerOtherProducts products product) docker_delete (n, v) =
          [Event.print (sharedImageNotice n v
            ((dockerOtherProducts products product).filter fun q => sharesImageB q n v))])) ∧
    ((dockerOtherProducts products product).filter (fun q => sharesImageB q n v) = [] →
      (remove_product_docker_images products name version docker_delete).out.count
        (Event.deleteImage n v) = 1) := by
  have hout := remove_images_out products name version docker_delete product imgs hget himgs hoth
  have hcount := flatMap_count_delete (dockerOtherProducts products product) docker_delete n v imgs
  refine ⟨hout, ?_, ?_⟩
  · intro hsh
    have hshF : ((dockerOtherProducts products product).filter
        (fun q => sharesImageB q n v)).isEmpty = false := by
      cases hfe : (dockerOtherProducts products product).filter (fun q => sharesImageB q n v) with
      | nil => exact absurd hfe hsh
      | cons a as => rfl
    constructor
    · rw [hout, hcount, hshF]
      simp
    · unfold imageStep
      rw [show ((dockerOtherProducts products product).filter
          (fun q => sharesImageB q (n, v).1 (n, v).2)).isEmpty = false from hshF]
      rfl
  · intro hsh
    have hshT : ((dockerOtherProducts products product).filter
        (fun q => sharesImageB q n v)).isEmpty = true := by
      rw [hsh]; rfl
    rw [hout, hcount, hshT]
    simpa using honce

/-- The mock catalog of the repository's tests: two SAT versions with
no shared image, and another product sharing `cray/cray-sat:1.0.1`
with SAT 2.0.1. -/
def satRecord200 : InstalledProductVersion :=
  ⟨"sat", "2.0.0", .dict [("component_versions", .dict [("docker", .list
      [.dict [("name", .str "cray/cray-sat"), ("version", .str "1.0.0")],
       .dict [("name", .str "cray/sat-cfs-install"), ("version", .str "1.4.0")]])])], []⟩

/-- SAT 2.0.1 of the mock catalog. -/
def satRecord201 : InstalledProductVersion :=
  ⟨"sat", "2.0.1", .dict [("component_versions", .dict [("docker", .list
      [.dict [("name", .str "cray/cray-sat"), ("version", .str "1.0.1")],
       .dict [("name", .str "cray/sat-other-image"), ("version", .str "1.4.0")]])])], []⟩

/-- The other product of the mock catalog, sharing one image. -/
def otherRecord200 : InstalledProductVersion :=
  ⟨"other_product", "2.0.0", .dict [("component_versions", .dict [("docker", .list
      [.dict [("name", .str "cray/cray-sat"), ("version", .str "1.0.1")]])])], []⟩

/-- The mock record set. -/
def mockProducts : List InstalledProductVersion :=
  [satRecord200, satRecord201, otherRecord200]

/-- Concrete instance of C1 at the mock catalog: removing
`other_product-2.0.0` deletes nothing and prints exactly one
shared-image notice naming `sat-2.0.1`. -/
theorem C1_docker_image_sharing_witness :
    (remove_product_docker_images mockProducts "other_product" "2.0.0"
        (fun _ _ => .ok)).out.count
        (Event.deleteImage (Py.str "cray/cray-sat") (Py.str "1.0.1")) = 0 ∧
    (remove_product_docker_images mockProducts "other_product" "2.0.0"
        (fun _ _ => .ok)).out =
      [Event.print ("Not removing Docker image cray/cray-sat:1.0.1 used by the " ++
        "following other product versions: sat-2.0.1")] := by
  have h := C1_docker_image_sharing mockProducts "other_product" "2.0.0" (fun _ _ => .ok)
    otherRecord200 [(Py.str "cray/cray-sat", Py.str "1.0.1")] rfl rfl
    (by
      intro q hq
      rw [show dockerOtherProducts mockProducts otherRecord200 =
          [satRecord200, satRecord201] from by decide] at hq
      rcases List.mem_cons.mp hq with rfl | hq2
      · exact ⟨_, rfl⟩
      · rcases List.mem_cons.mp hq2 with rfl | hq3
        · exact ⟨_, rfl⟩
        · exact absurd hq3 (List.not_mem_nil q))
    (Py.str "cray/cray-sat") (Py.str "1.0.1") (by decide) (by decide)
  have h2 := (h.2.1 (by decide)).1
  exact ⟨h2, by decide⟩

/-- A record declaring the chart `chart1:1.0.0`, resolvable to nexus
component `id1`. -/
def chartRecordA : InstalledProductVersion :=
  ⟨"prodA", "1.0", .dict [("component_versions", .dict [("helm", .list
      [.dict [("name", .str "chart1"), ("version", .str "1.0.0")]])])],
   [⟨"chart1", "1.0.0", "id1"⟩]⟩

/-- A second record declaring the same chart `chart1:1.0.0`. -/
def chartRecordB : InstalledProductVersion :=
  ⟨"prodB", "1.0", .dict [("component_versions", .dict [("helm", .list
      [.dict [("name", .str "chart1"), ("version", .str "1.0.0")]])])],
   [⟨"chart1", "1.0.0", "id1"⟩]⟩

/-- Counterexample to C1 as stated for the chart class: `chart1:1.0.0`
is declared by both records, yet removing `prodA`'s charts deletes its
nexus component externally — chart removal performs no sharing check. -/
theorem C1_shared_chart_deleted_counterexample :
    chartRecordA.helm_charts = .ok [(Py.str "chart1", Py.str "1.0.0")] ∧
    chartRecordB.helm_charts = .ok [(Py.str "chart1", Py.str "1.0.0")] ∧
    chartRecordA.nexus_charts = [⟨"chart1", "1.0.0", "id1"⟩] ∧
    Event.deleteComponent "id1" ∈
      (remove_helm_charts ⟨[chartRecordA, chartRecordB], []⟩ "prodA" "1.0"
        (fun _ => .ok) (.maxRetryError "down") (fun _ => .error "unused")
        (fun _ _ _ => 0)).2.out := by
  refine ⟨rfl, rfl, rfl, ?_⟩
  decide

/-- The nexus chart components for the two-call scenario. -/
def chartComps2 : List NexusComponent :=
  [⟨"chart1", "1.0.0", "id1"⟩, ⟨"chart2", "2.0.0", "id2"⟩]

/-- First product of the two-call scenario: declares two charts. -/
def chartRecordA2 : InstalledProductVersion :=
  ⟨"prodA", "1.0", .dict [("component_versions", .dict [("helm", .list
      [.dict [("name", .str "chart1"), ("version", .str "1.0.0")],
       .dict [("name", .str "chart2"), ("version", .str "2.0.0")]])])], chartComps2⟩

/-- Second product of the two-call scenario: declares only `chart1`. -/
def chartRecordB2 : InstalledProductVersion :=
  ⟨"prodB", "1.0", .dict [("component_versions", .dict [("helm", .list
      [.dict [("name", .str "chart1"), ("version", .str "1.0.0")]])])], chartComps2⟩

/-- Config-map contents for the two-call scenario. -/
def twoCallReadOutcome : K8sReadOutcome :=
  .ok ⟨Option.some [("prodA", .str "rawA"), ("prodB", .str "rawB")]⟩

/-- YAML decoding oracle for the two-call scenario. -/
def twoCallSafeLoad : String → Except String Py := fun s =>
  if s == "rawA" then
    .ok (.dict [("1.0", .dict [("component_versions", .dict [("helm", .list
        [.dict [("name", .str "chart1"), ("version", .str "1.0.0")],
         .dict [("name", .str "chart2"), ("version", .str "2.0.0")]])])])])
  else if s == "rawB" then
    .ok (.dict [("1.0", .dict [("component_versions", .dict [("helm", .list
        [.dict [("name", .str "chart1"), ("version", .str "1.0.0")]])])])])
  else .error "unknown"

/-- The catalog instance state before any chart removal. -/
def twoCallState0 : CatalogState := ⟨[chartRecordA2, chartRecordB2], []⟩

/-- First chart removal, for `prodA`. -/
def firstChartCall : CatalogState × MRes Unit :=
  remove_helm_charts twoCallState0 "prodA" "1.0" (fun _ => .ok)
    twoCallReadOutcome twoCallSafeLoad (fun _ _ _ => 0)

/-- Second chart removal on the same instance, for `prodB`. -/
def secondChartCall : CatalogState × MRes Unit :=
  remove_helm_charts firstChartCall.1 "prodB" "1.0" (fun _ => .ok)
    twoCallReadOutcome twoCallSafeLoad (fun _ _ _ => 0)

/-- C10: `helm_charts_deleted_nexus` is instance state that is appended
to and never cleared — every call leaves the prior list as a prefix —
and a second chart-removal call on the same instance (here for a
different product) passes the accumulated list into the config-map
rewrite: the second call's rewrite loop processes `chart2`, deleted
only by the first call and never declared by `prodB`. -/
theorem C10_deleted_charts_accumulate :
    (∀ (st : CatalogState) (name version : String)
       (component_delete : String → HttpOutcome)
       (read_config_map : K8sReadOutcome)
       (safe_load : String → Except String Py)
       (catalog_update_exit : String → String → Py → Nat),
      ∃ l, (remove_helm_charts st name version component_delete read_config_map
          safe_load catalog_update_exit).1.helm_charts_deleted_nexus
        = st.helm_charts_deleted_nexus ++ l) ∧
    firstChartCall.1.helm_charts_deleted_nexus =
      [(Py.str "chart1", Py.str "1.0.0", "id1"), (Py.str "chart2", Py.str "2.0.0", "id2")] ∧
    secondChartCall.1.helm_charts_deleted_nexus =
      [(Py.str "chart1", Py.str "1.0.0", "id1"), (Py.str "chart2", Py.str "2.0.0", "id2"),
       (Py.str "chart1", Py.str "1.0.0", "id1")] ∧
    chartRecordB2.helm_charts = .ok [(Py.str "chart1", Py.str "1.0.0")] ∧
    Event.print "Attempting to delete chart chart2:2.0.0:id2" ∈ secondChartCall.2.out := by
  refine ⟨?_, by decide, by decide, rfl, by decide⟩
  intro st name version component_delete read_config_map safe_load catalog_update_exit
  unfold remove_helm_charts
  dsimp only
  repeat' split
  all_goals
    first
      | exact ⟨[], (List.append_nil _).symm⟩
      | exact ⟨_, rfl⟩
